import Mathlib

/-!
# Ray queries of the rasterizer: `RasterizableObject` and `Scene`

A shallow embedding of `RasterizableObject::intersectRay`,
`RasterizableObject::intersectRayTriangle`, `RasterizableObject::vertexToWorld`,
the `RenderableObject` constructor and `Scene::firstRayHit`.

The file holds two embeddings of the arithmetic.

* The first one computes in exact rationals (`float` is `ℚ`, a hit distance
  is a `WithTop ℚ` so that it can be `+infinity`).  It is used for the control
  flow of the scene and of the mesh loop, for the material, and for the
  statements made in exact arithmetic.
* The section `Binary32` computes `intersectRayTriangle` with IEEE 754 binary32
  operations: rounding, overflow to infinity and NaN.  It is used where the
  behaviour of the compiled program differs from exact arithmetic.
-/

namespace Graphics

/-! ## GLM vectors and matrices -/

/-- The type `glm::vec2`. -/
structure Vec2 where
  x : ℚ
  y : ℚ
deriving DecidableEq

/-- The type `glm::vec3`. -/
structure Vec3 where
  x : ℚ
  y : ℚ
  z : ℚ
deriving DecidableEq

/-- The type `glm::vec4`. -/
structure Vec4 where
  x : ℚ
  y : ℚ
  z : ℚ
  w : ℚ
deriving DecidableEq

/-- The type `glm::mat4`, given by its four rows. -/
structure Mat4 where
  r0 : Vec4
  r1 : Vec4
  r2 : Vec4
  r3 : Vec4
deriving DecidableEq

namespace Vec2

/-- Componentwise sum. -/
def add (a b : Vec2) : Vec2 := ⟨a.x + b.x, a.y + b.y⟩

/-- Scalar times vector. -/
def smul (k : ℚ) (a : Vec2) : Vec2 := ⟨k * a.x, k * a.y⟩

end Vec2

namespace Vec3

/-- The zero vector. -/
def zero : Vec3 := ⟨0, 0, 0⟩

/-- Componentwise sum. -/
def add (a b : Vec3) : Vec3 := ⟨a.x + b.x, a.y + b.y, a.z + b.z⟩

/-- Componentwise difference. -/
def sub (a b : Vec3) : Vec3 := ⟨a.x - b.x, a.y - b.y, a.z - b.z⟩

/-- Scalar times vector. -/
def smul (k : ℚ) (a : Vec3) : Vec3 := ⟨k * a.x, k * a.y, k * a.z⟩

/-- Componentwise negation. -/
def neg (a : Vec3) : Vec3 := ⟨-a.x, -a.y, -a.z⟩

/-- The function `glm::dot`. -/
def dot (a b : Vec3) : ℚ := a.x * b.x + a.y * b.y + a.z * b.z

/-- The function `glm::cross`. -/
def cross (a b : Vec3) : Vec3 :=
  ⟨a.y * b.z - b.y * a.z, a.z * b.x - b.z * a.x, a.x * b.y - b.x * a.y⟩

end Vec3

/-- The conversion `vec4(v, w)`. -/
def Vec4.ofVec3 (v : Vec3) (w : ℚ) : Vec4 := ⟨v.x, v.y, v.z, w⟩

/-- The conversion `vec3(v)`, which drops the last component. -/
def Vec4.toVec3 (v : Vec4) : Vec3 := ⟨v.x, v.y, v.z⟩

/-- Dot product of two `vec4`. -/
def Vec4.dot (a b : Vec4) : ℚ := a.x * b.x + a.y * b.y + a.z * b.z + a.w * b.w

/-- The product `mat4 * vec4`. -/
def Mat4.mulVec (m : Mat4) (v : Vec4) : Vec4 :=
  ⟨m.r0.dot v, m.r1.dot v, m.r2.dot v, m.r3.dot v⟩

/-- The identity matrix `glm::mat4(1)`. -/
def Mat4.identity : Mat4 :=
  ⟨⟨1, 0, 0, 0⟩, ⟨0, 1, 0, 0⟩, ⟨0, 0, 1, 0⟩, ⟨0, 0, 0, 1⟩⟩

/-! ## Material.h -/

/-- The struct `Material`. -/
structure Material where
  ka : Vec3
  kd : Vec3
  ks : Vec3
  shininess : ℚ
  kr : Vec3
  ke : Vec3
  transparency : ℚ
deriving DecidableEq

/-- The struct `MaterialConfig`. -/
structure MaterialConfig where
  hasTransparency : Bool
  hasKdMap : Bool
  hasKsMap : Bool
  hasKeMap : Bool
  hasNormalMap : Bool
  hasParallaxMap : Bool
  kdTextureFile : String
  ksTextureFile : String
  keTextureFile : String
  normalTextureFile : String
  parallaxTextureFile : String
  defaultMaterial : Material

/-! ## External collaborators: textures, rays, vertices, hit records -/

/-- Modelled from the spec: the `Texture` class is not among the sources.  Its
interface is `isValid() -> bool` and `sample(texCoord: vec2) -> vec3`. -/
structure Texture where
  isValid : Bool
  sample : Vec2 → Vec3

/-- Modelled from the spec: a default-constructed `Texture()`, whose declaration
is not among the sources.  Absence of a texture is `isValid() == false`. -/
def Texture.absent : Texture := ⟨false, fun _ => Vec3.zero⟩

/-- The members of `RenderableObject` on which `Texture::sample` can be called. -/
inductive TextureSlot where
  | kdTexture
  | ksTexture
  | keTexture
deriving DecidableEq

/-- The class `Ray`, seen through `getOrigin()` and `getDirection()`. -/
structure Ray where
  origin : Vec3
  direction : Vec3

/-- The struct `Vertex`: position, normal, texture coordinate, tangent (the
attribute layout of `sendMeshData`). -/
structure Vertex where
  p : Vec3
  n : Vec3
  t : Vec2
  tangent : Vec3

/-- The struct `Mesh`: a flat triangle list. -/
structure Mesh where
  vertices : List Vertex

/-- The struct `RayHit`.  The distance `t` is a float that can be `+infinity`. -/
structure RayHit where
  t : WithTop ℚ
  position : Vec3
  normal : Vec3
  material : Material

/-- Modelled from the spec: the value of a default-constructed `RayHit()`, whose
declaration is not among the sources: "a no-hit sentinel has `t = +infinity`".
The material is a default `Material` (`transparency = 1`). -/
def RayHit.noHit : RayHit :=
  { t := ⊤
    position := Vec3.zero
    normal := Vec3.zero
    material :=
      { ka := Vec3.zero, kd := Vec3.zero, ks := Vec3.zero, shininess := 0,
        kr := Vec3.zero, ke := Vec3.zero, transparency := 1 } }

/-! ## RenderableObject.cpp -/

/-- The material state of `RenderableObject`: the default material and the five
texture members. -/
structure RenderableObject where
  m_defaultMaterial : Material
  m_kdTexture : Texture
  m_ksTexture : Texture
  m_keTexture : Texture
  m_normalTexture : Texture
  m_parallaxTexture : Texture

/-- The constructor `RenderableObject::RenderableObject(const MaterialConfig&)`.
`loadTexture` stands for the external constructor `Texture(file)`.  Only the
diffuse and the specular member are assigned; every other texture member stays
default-constructed. -/
def RenderableObject.new (loadTexture : String → Texture) (_config : MaterialConfig) :
    RenderableObject :=
  { m_defaultMaterial := _config.defaultMaterial
    m_kdTexture := if _config.hasKdMap then loadTexture _config.kdTextureFile else Texture.absent
    m_ksTexture := if _config.hasKsMap then loadTexture _config.ksTextureFile else Texture.absent
    m_keTexture := Texture.absent
    m_normalTexture := Texture.absent
    m_parallaxTexture := Texture.absent }

/-! ## RasterizableObject.cpp -/

/-- The transposition `glm::transpose`. -/
def Mat4.transpose (m : Mat4) : Mat4 :=
  ⟨⟨m.r0.x, m.r1.x, m.r2.x, m.r3.x⟩, ⟨m.r0.y, m.r1.y, m.r2.y, m.r3.y⟩,
   ⟨m.r0.z, m.r1.z, m.r2.z, m.r3.z⟩, ⟨m.r0.w, m.r1.w, m.r2.w, m.r3.w⟩⟩

/-- The ray-query state of `RasterizableObject`: the base object, the borrowed
mesh and the two matrices. -/
structure RasterizableObject extends RenderableObject where
  m_mesh : Mesh
  m_vModelMatrix : Mat4
  m_nModelMatrix : Mat4

/-- The constructor of `RasterizableObject`; `inverse` stands for `glm::inverse`. -/
def RasterizableObject.new (loadTexture : String → Texture) (inverse : Mat4 → Mat4)
    (_mesh : Mesh) (_materialConfig : MaterialConfig) (_modelMatrix : Mat4) :
    RasterizableObject :=
  { toRenderableObject := RenderableObject.new loadTexture _materialConfig
    m_mesh := _mesh
    m_vModelMatrix := _modelMatrix
    m_nModelMatrix := (inverse _modelMatrix).transpose }

/-- The member `m_nVertices`, set to `_mesh.vertices.size()` by the constructor. -/
def RasterizableObject.m_nVertices (obj : RasterizableObject) : Nat :=
  obj.m_mesh.vertices.length

/-- The method `RasterizableObject::vertexToWorld`; `normalize` stands for
`glm::normalize`.  The tangent is not listed in the braces, so it is zero. -/
def RasterizableObject.vertexToWorld (normalize : Vec3 → Vec3) (obj : RasterizableObject)
    (v : Vertex) : Vertex :=
  { p := (obj.m_vModelMatrix.mulVec (Vec4.ofVec3 v.p 1)).toVec3
    n := normalize (obj.m_nModelMatrix.mulVec (Vec4.ofVec3 v.n 0)).toVec3
    t := v.t
    tangent := Vec3.zero }

/-- The constant `RasterizableObject::SELF_INTERSECTION_BIAS = 1e-3f`, taken as the
decimal `1/1000` in exact arithmetic; its binary32 value is
`Binary32.RasterizableObject.SELF_INTERSECTION_BIAS`. -/
def RasterizableObject.SELF_INTERSECTION_BIAS : ℚ := 1 / 1000

/-- The local `det` of `intersectRayTriangle`: `dot(e1, cross(rayDir, e2))`. -/
def triDet (ray : Ray) (v0 v1 v2 : Vertex) : ℚ :=
  let e1 := v1.p.sub v0.p
  let e2 := v2.p.sub v0.p
  let pVec := ray.direction.cross e2
  e1.dot pVec

/-- The local `b` of `intersectRayTriangle`: `dot(tVec, pVec) * invDet`. -/
def triB (ray : Ray) (v0 v1 v2 : Vertex) : ℚ :=
  let e2 := v2.p.sub v0.p
  let pVec := ray.direction.cross e2
  let invDet := 1 / triDet ray v0 v1 v2
  let tVec := ray.origin.sub v0.p
  tVec.dot pVec * invDet

/-- The local `c` of `intersectRayTriangle`: `dot(rayDir, qVec) * invDet`. -/
def triC (ray : Ray) (v0 v1 v2 : Vertex) : ℚ :=
  let e1 := v1.p.sub v0.p
  let invDet := 1 / triDet ray v0 v1 v2
  let tVec := ray.origin.sub v0.p
  let qVec := tVec.cross e1
  ray.direction.dot qVec * invDet

/-- The local `t` of `intersectRayTriangle`: `dot(e2, qVec) * invDet`. -/
def triT (ray : Ray) (v0 v1 v2 : Vertex) : ℚ :=
  let e1 := v1.p.sub v0.p
  let e2 := v2.p.sub v0.p
  let invDet := 1 / triDet ray v0 v1 v2
  let tVec := ray.origin.sub v0.p
  let qVec := tVec.cross e1
  e2.dot qVec * invDet

/-- The local `texCoord` of `intersectRayTriangle`: `a*v0.t + b*v1.t + c*v2.t`
with `a = 1 - b - c`. -/
def triTexCoord (ray : Ray) (v0 v1 v2 : Vertex) : Vec2 :=
  let b := triB ray v0 v1 v2
  let c := triC ray v0 v1 v2
  let a := 1 - b - c
  ((Vec2.smul a v0.t).add (Vec2.smul b v1.t)).add (Vec2.smul c v2.t)

/-- The material block of `intersectRayTriangle` (from `hitResult->material =
m_defaultMaterial` to the last `if`): the material written to the hit, and the
list of texture members on which `sample` was called, in call order. -/
def RenderableObject.hitMaterial (obj : RenderableObject) (texCoord : Vec2) :
    Material × List TextureSlot :=
  let r0 : Material × List TextureSlot := (obj.m_defaultMaterial, [])
  let r1 :=
    if obj.m_kdTexture.isValid then
      ({ r0.1 with kd := obj.m_kdTexture.sample texCoord }, r0.2 ++ [TextureSlot.kdTexture])
    else r0
  let r2 :=
    if obj.m_ksTexture.isValid then
      ({ r1.1 with ks := obj.m_kdTexture.sample texCoord }, r1.2 ++ [TextureSlot.kdTexture])
    else r1
  let r3 :=
    if obj.m_keTexture.isValid then
      ({ r2.1 with ke := obj.m_keTexture.sample texCoord }, r2.2 ++ [TextureSlot.keTexture])
    else r2
  r3

/-- The method `RasterizableObject::intersectRayTriangle`.  The accumulator
`*hitResult` is passed in and returned next to the boolean result. -/
def RasterizableObject.intersectRayTriangle (obj : RasterizableObject) (ray : Ray)
    (v0 v1 v2 : Vertex) (hitResult : RayHit) : Bool × RayHit :=
  let rayOrigin := ray.origin
  let rayDir := ray.direction
  let det := triDet ray v0 v1 v2
  if det = 0 then (false, hitResult) else
  let b := triB ray v0 v1 v2
  if b < 0 ∨ b > 1 then (false, hitResult) else
  let c := triC ray v0 v1 v2
  if c < 0 ∨ b + c > 1 then (false, hitResult) else
  let t := triT ray v0 v1 v2
  if t ≤ RasterizableObject.SELF_INTERSECTION_BIAS ∨ hitResult.t ≤ (t : WithTop ℚ) then
    (false, hitResult)
  else
  let a := 1 - b - c
  (true,
    { t := (t : WithTop ℚ)
      position := rayOrigin.add (rayDir.smul t)
      normal := ((Vec3.smul a v0.n).add (Vec3.smul b v1.n)).add (Vec3.smul c v2.n)
      material := (obj.hitMaterial (triTexCoord ray v0 v1 v2)).1 })

/-- The body of the `for` loop of `intersectRay`, run `n` more times from index
`i`.  Since `isHit || ...` short-circuits, the triangle is neither read nor
tested once `isHit` is set.  Reading past the end of the mesh is `none`. -/
def RasterizableObject.intersectRayLoop (normalize : Vec3 → Vec3) (obj : RasterizableObject)
    (_ray : Ray) : Nat → Nat → Bool × RayHit → Option (Bool × RayHit)
  | 0, _, st => some st
  | n + 1, i, (isHit, hitResult) =>
    if isHit then
      RasterizableObject.intersectRayLoop normalize obj _ray n (i + 3) (true, hitResult)
    else do
      let a0 ← obj.m_mesh.vertices[i]?
      let a1 ← obj.m_mesh.vertices[i + 1]?
      let a2 ← obj.m_mesh.vertices[i + 2]?
      RasterizableObject.intersectRayLoop normalize obj _ray n (i + 3)
        (obj.intersectRayTriangle _ray (obj.vertexToWorld normalize a0)
          (obj.vertexToWorld normalize a1) (obj.vertexToWorld normalize a2) hitResult)

/-- The method `RasterizableObject::intersectRay`.  The loop `for (i = 0; i <
m_nVertices; i += 3)` runs `(m_nVertices + 2) / 3` times. -/
def RasterizableObject.intersectRay (normalize : Vec3 → Vec3) (obj : RasterizableObject)
    (_ray : Ray) : Option RayHit :=
  (obj.intersectRayLoop normalize _ray ((obj.m_nVertices + 2) / 3) 0
      (false, { RayHit.noHit with t := ⊤ })).map
    fun r => if !r.1 then RayHit.noHit else r.2

/-! ## Scene.cpp -/

/-- The interface through which the scene queries an object: the virtual
method `intersectRay`. -/
structure RayTracableObject where
  intersectRay : Ray → RayHit

/-- The ray-query state of `Scene`: the owned objects in insertion order. -/
structure Scene where
  m_objects : List RayTracableObject

/-- The constant `Scene::SELF_INTERSECTION_BIAS = 1e-3f`. -/
def Scene.SELF_INTERSECTION_BIAS : ℚ := 1 / 1000

/-- The method `Scene::addObject`. -/
def Scene.addObject (scene : Scene) (_object : RayTracableObject) : Scene :=
  { m_objects := scene.m_objects ++ [_object] }

/-- The `for` loop of `firstRayHit` over the objects from index `i` on, with
the running `firstHit` and `firstHitIndex`. -/
def Scene.firstRayHitLoop (_ray : Ray) :
    List RayTracableObject → Int → RayHit × Int → RayHit × Int
  | [], _, st => st
  | o :: os, i, (firstHit, firstHitIndex) =>
    let hit := o.intersectRay _ray
    if hit.t > (Scene.SELF_INTERSECTION_BIAS : WithTop ℚ) ∧ hit.t < firstHit.t then
      Scene.firstRayHitLoop _ray os (i + 1) (hit, i)
    else
      Scene.firstRayHitLoop _ray os (i + 1) (firstHit, firstHitIndex)

/-- The method `Scene::firstRayHit`.  The returned pointer is `none` for
`nullptr` and otherwise the index of the object in `m_objects`; the second
component is the value of `*_hitInfo` after the call. -/
def Scene.firstRayHit (scene : Scene) (_ray : Ray) (_hitInfo : RayHit) :
    Option Nat × RayHit :=
  let r := Scene.firstRayHitLoop _ray scene.m_objects 0 ({ RayHit.noHit with t := ⊤ }, -1)
  if r.2 < 0 then (none, _hitInfo) else (some r.2.toNat, r.1)

/-! ## The triangle test: when it accepts and what it writes -/

/-- The hit record `intersectRayTriangle` writes when it accepts. -/
def RasterizableObject.acceptedHit (obj : RasterizableObject) (ray : Ray)
    (v0 v1 v2 : Vertex) : RayHit :=
  { t := (triT ray v0 v1 v2 : WithTop ℚ)
    position := ray.origin.add (ray.direction.smul (triT ray v0 v1 v2))
    normal :=
      ((Vec3.smul (1 - triB ray v0 v1 v2 - triC ray v0 v1 v2) v0.n).add
        (Vec3.smul (triB ray v0 v1 v2) v1.n)).add (Vec3.smul (triC ray v0 v1 v2) v2.n)
    material := (obj.hitMaterial (triTexCoord ray v0 v1 v2)).1 }

/-- The conjunction of all tests a triangle has to pass to be accepted. -/
def triAccepts (ray : Ray) (v0 v1 v2 : Vertex) (hitResult : RayHit) : Prop :=
  triDet ray v0 v1 v2 ≠ 0 ∧
  (0 ≤ triB ray v0 v1 v2 ∧ triB ray v0 v1 v2 ≤ 1) ∧
  (0 ≤ triC ray v0 v1 v2 ∧ triB ray v0 v1 v2 + triC ray v0 v1 v2 ≤ 1) ∧
  RasterizableObject.SELF_INTERSECTION_BIAS < triT ray v0 v1 v2 ∧
  (triT ray v0 v1 v2 : WithTop ℚ) < hitResult.t

instance (ray : Ray) (v0 v1 v2 : Vertex) (hitResult : RayHit) :
    Decidable (triAccepts ray v0 v1 v2 hitResult) := by
  unfold triAccepts; infer_instance

/-! ## Test data -/

/-- A material whose only non-zero reflectance is the diffuse colour `kd`. -/
def diffuseMaterial (kd : Vec3) : Material :=
  { ka := Vec3.zero, kd := kd, ks := Vec3.zero, shininess := 0,
    kr := Vec3.zero, ke := Vec3.zero, transparency := 1 }

/-- A material configuration with the given map flags and default material. -/
def configWith (hasKdMap hasKsMap hasKeMap : Bool) (m : Material) : MaterialConfig :=
  { hasTransparency := false, hasKdMap := hasKdMap, hasKsMap := hasKsMap,
    hasKeMap := hasKeMap, hasNormalMap := false, hasParallaxMap := false,
    kdTextureFile := "kd.png", ksTextureFile := "ks.png", keTextureFile := "ke.png",
    normalTextureFile := "", parallaxTextureFile := "", defaultMaterial := m }

/-- A vertex at `(x, y, z)` with normal `(0, 0, 1)` and texture coordinate `(x, y)`. -/
def vertexAt (x y z : ℚ) : Vertex := ⟨⟨x, y, z⟩, ⟨0, 0, 1⟩, ⟨x, y⟩, Vec3.zero⟩

/-- The ray from `(x, y, z)` in direction `(0, 0, -1)`. -/
def rayDown (x y z : ℚ) : Ray := ⟨⟨x, y, z⟩, ⟨0, 0, -1⟩⟩

/-- The single triangle `(0,0,0), (1,0,0), (0,1,0)`. -/
def unitTriangleMesh : Mesh := ⟨[vertexAt 0 0 0, vertexAt 1 0 0, vertexAt 0 1 0]⟩

/-- An untextured object over the unit triangle with the identity transform. -/
def unitTriangleObject : RasterizableObject :=
  RasterizableObject.new (fun _ => Texture.absent) id unitTriangleMesh
    (configWith false false false (diffuseMaterial ⟨1, 0, 0⟩)) Mat4.identity

/-- Two parallel triangles: the first in the plane `z = 0`, the second, nearer
to a viewer above, in the plane `z = 1`. -/
def farThenNearMesh : Mesh :=
  ⟨[vertexAt 0 0 0, vertexAt 1 0 0, vertexAt 0 1 0,
    vertexAt 0 0 1, vertexAt 1 0 1, vertexAt 0 1 1]⟩

/-- An untextured object over `farThenNearMesh` with the identity transform. -/
def farThenNearObject : RasterizableObject :=
  RasterizableObject.new (fun _ => Texture.absent) id farThenNearMesh
    (configWith false false false (diffuseMaterial ⟨1, 0, 0⟩)) Mat4.identity

/-- The ray aimed at the point `p` from the distance `s` along `n`: its origin
is `p + s * n` and its direction `-n`. -/
def aimedRay (p n : Vec3) (s : ℚ) : Ray := ⟨p.add (Vec3.smul s n), n.neg⟩

/-- An object whose `intersectRay` reports the distance `t` and the diffuse
colour `kd` for every ray. -/
def constantObject (t : WithTop ℚ) (kd : Vec3) : RayTracableObject :=
  ⟨fun _ => { RayHit.noHit with t := t, material := diffuseMaterial kd }⟩

/-- Two objects at the same distance `5`, and a third one behind them. -/
def tieScene : Scene :=
  ⟨[constantObject (5 : ℚ) ⟨1, 0, 0⟩, constantObject (5 : ℚ) ⟨0, 1, 0⟩,
    constantObject (7 : ℚ) ⟨0, 0, 1⟩]⟩

/-- One object at exactly the bias distance and one that is missed. -/
def missScene : Scene :=
  ⟨[constantObject ((1 / 1000 : ℚ) : WithTop ℚ) ⟨1, 0, 0⟩, constantObject ⊤ ⟨0, 1, 0⟩]⟩

/-- A valid texture of one colour. -/
def constTexture (c : Vec3) : Texture := ⟨true, fun _ => c⟩

/-- A texture loader: the diffuse file is red, the specular file green, the
emissive file blue; any other file fails to load. -/
def paletteLoader (file : String) : Texture :=
  if file = "kd.png" then constTexture ⟨1, 0, 0⟩
  else if file = "ks.png" then constTexture ⟨0, 1, 0⟩
  else if file = "ke.png" then constTexture ⟨0, 0, 1⟩
  else Texture.absent

/-- The unit triangle with a specular map and no diffuse map. -/
def specularOnlyObject : RasterizableObject :=
  RasterizableObject.new paletteLoader id unitTriangleMesh
    (configWith false true false (diffuseMaterial ⟨1/2, 1/2, 1/2⟩)) Mat4.identity

/-- The unit triangle with diffuse, specular and emissive maps declared. -/
def fullyMappedObject : RasterizableObject :=
  RasterizableObject.new paletteLoader id unitTriangleMesh
    (configWith true true true (diffuseMaterial ⟨1/2, 1/2, 1/2⟩)) Mat4.identity

/-- One call of `intersectRayTriangle`: its ray and its three vertices. -/
structure TriangleCall where
  ray : Ray
  v0 : Vertex
  v1 : Vertex
  v2 : Vertex

/-- A sequence of calls of `intersectRayTriangle` on one accumulator, in order;
the result is the accumulator after the last call. -/
def RasterizableObject.intersectRayTriangleSeq (obj : RasterizableObject)
    (calls : List TriangleCall) (hitResult : RayHit) : RayHit :=
  calls.foldl (fun acc c => (obj.intersectRayTriangle c.ray c.v0 c.v1 c.v2 acc).2) hitResult

/-! ## The same triangle test in binary32 arithmetic

The definitions above compute in exact rationals.  The definitions of this
section compute as the compiled program does when every `float` operation is
one IEEE 754 binary32 operation (round to nearest, ties to even; no fused
multiply-add): results are rounded to 24 significant bits, overflow to an
infinity, and `inf * 0` and `inf - inf` are NaN.  The two zeros are identified:
they compare equal, and the only division of `intersectRayTriangle`, `1 / det`,
is guarded by `det == 0`. -/

namespace Binary32

/-- A binary32 value: a finite number, given by its exact rational value, an
infinity, or NaN. -/
inductive F32 where
  | fin (q : ℚ)
  | pinf
  | ninf
  | nan
deriving DecidableEq

namespace F32

/-- The rational `2 ^ e` for an integer exponent. -/
def pow2 (e : Int) : ℚ :=
  if 0 ≤ e then ((2 ^ e.toNat : Nat) : ℚ) else 1 / ((2 ^ (-e).toNat : Nat) : ℚ)

/-- The number of halvings that bring `n` below `2`, at most `fuel` of them. -/
def log2Aux : Nat → Nat → Nat
  | 0, _ => 0
  | fuel + 1, n => if n < 2 then 0 else log2Aux fuel (n / 2) + 1

/-- The natural number `floor (log2 n)` of a positive natural number. -/
def log2 (n : Nat) : Nat := log2Aux n n

/-- The integer `floor (log2 a)` of a positive rational. -/
def floorLog2 (a : ℚ) : Int :=
  let k : Int := (log2 a.num.natAbs : Int) - (log2 a.den : Int)
  if pow2 k ≤ a then k else k - 1

/-- The integer nearest to a non-negative rational, ties to the even one. -/
def roundHalfEven (m : ℚ) : Nat :=
  let f : Nat := m.num.natAbs / m.den
  let r : ℚ := m - (f : ℚ)
  if r < 1 / 2 then f
  else if 1 / 2 < r then f + 1
  else if f % 2 = 0 then f else f + 1

/-- Rounding of an exact result to binary32: 24 significant bits above the
exponent `-126`, multiples of `2 ^ -149` below, and an infinity from `2 ^ 128`
on. -/
def round (q : ℚ) : F32 :=
  if q = 0 then fin 0
  else
    let a : ℚ := if q < 0 then -q else q
    let ex : Int := max (floorLog2 a) (-126) - 23
    let v : ℚ := (roundHalfEven (a / pow2 ex) : ℚ) * pow2 ex
    if pow2 128 ≤ v then (if 0 < q then pinf else ninf)
    else fin (if 0 < q then v else -v)

/-- The constant `0` converted to `float`. -/
def zero : F32 := fin 0

/-- The constant `1` converted to `float`. -/
def one : F32 := fin 1

/-- The sign of a value that is not NaN: `1`, `0` or `-1`. -/
def sign : F32 → Int
  | fin q => if 0 < q then 1 else if q < 0 then -1 else 0
  | pinf => 1
  | ninf => -1
  | nan => 0

/-- Unary minus. -/
def neg : F32 → F32
  | fin q => fin (-q)
  | pinf => ninf
  | ninf => pinf
  | nan => nan

/-- The operator `+` on `float`. -/
def add : F32 → F32 → F32
  | nan, _ => nan
  | _, nan => nan
  | fin a, fin b => round (a + b)
  | fin _, pinf => pinf
  | fin _, ninf => ninf
  | pinf, fin _ => pinf
  | ninf, fin _ => ninf
  | pinf, pinf => pinf
  | ninf, ninf => ninf
  | pinf, ninf => nan
  | ninf, pinf => nan

/-- The operator `-` on `float`. -/
def sub (x y : F32) : F32 := add x (neg y)

/-- The operator `*` on `float`. -/
def mul : F32 → F32 → F32
  | nan, _ => nan
  | _, nan => nan
  | fin a, fin b => round (a * b)
  | x, y =>
    if sign x * sign y = 0 then nan
    else if 0 < sign x * sign y then pinf else ninf

/-- The operator `/` on `float`.  A non-zero number divided by zero is given the
sign of the numerator. -/
def div : F32 → F32 → F32
  | nan, _ => nan
  | _, nan => nan
  | fin a, fin b =>
    if b = 0 then (if a = 0 then nan else if 0 < a then pinf else ninf)
    else round (a / b)
  | fin _, _ => fin 0
  | x, fin b => if 0 < sign x * (if b < 0 then -1 else 1) then pinf else ninf
  | _, _ => nan

/-- The operator `<` on `float`: false as soon as one side is NaN. -/
def lt : F32 → F32 → Bool
  | nan, _ => false
  | _, nan => false
  | fin a, fin b => decide (a < b)
  | fin _, pinf => true
  | fin _, ninf => false
  | pinf, _ => false
  | ninf, ninf => false
  | ninf, _ => true

/-- The operator `<=` on `float`: false as soon as one side is NaN. -/
def le : F32 → F32 → Bool
  | nan, _ => false
  | _, nan => false
  | fin a, fin b => decide (a ≤ b)
  | fin _, pinf => true
  | fin _, ninf => false
  | pinf, pinf => true
  | pinf, _ => false
  | ninf, _ => true

/-- The operator `>` on `float`. -/
def gt (x y : F32) : Bool := lt y x

/-- The operator `==` on `float`: false as soon as one side is NaN. -/
def eq : F32 → F32 → Bool
  | fin a, fin b => decide (a = b)
  | pinf, pinf => true
  | ninf, ninf => true
  | _, _ => false

end F32

/-- The type `glm::vec2` over `float`. -/
structure Vec2 where
  x : F32
  y : F32
deriving DecidableEq

/-- The type `glm::vec3` over `float`. -/
structure Vec3 where
  x : F32
  y : F32
  z : F32
deriving DecidableEq

namespace Vec2

/-- Componentwise sum. -/
def add (a b : Vec2) : Vec2 := ⟨F32.add a.x b.x, F32.add a.y b.y⟩

/-- Scalar times vector. -/
def smul (k : F32) (a : Vec2) : Vec2 := ⟨F32.mul k a.x, F32.mul k a.y⟩

end Vec2

namespace Vec3

/-- Componentwise sum. -/
def add (a b : Vec3) : Vec3 := ⟨F32.add a.x b.x, F32.add a.y b.y, F32.add a.z b.z⟩

/-- Componentwise difference. -/
def sub (a b : Vec3) : Vec3 := ⟨F32.sub a.x b.x, F32.sub a.y b.y, F32.sub a.z b.z⟩

/-- Scalar times vector, `k * a`. -/
def smul (k : F32) (a : Vec3) : Vec3 := ⟨F32.mul k a.x, F32.mul k a.y, F32.mul k a.z⟩

/-- Vector times scalar, `a * k`. -/
def scale (a : Vec3) (k : F32) : Vec3 := ⟨F32.mul a.x k, F32.mul a.y k, F32.mul a.z k⟩

/-- Componentwise negation. -/
def neg (a : Vec3) : Vec3 := ⟨F32.neg a.x, F32.neg a.y, F32.neg a.z⟩

/-- The function `glm::dot`: the three products, summed from the left. -/
def dot (a b : Vec3) : F32 :=
  F32.add (F32.add (F32.mul a.x b.x) (F32.mul a.y b.y)) (F32.mul a.z b.z)

/-- The function `glm::cross`. -/
def cross (a b : Vec3) : Vec3 :=
  ⟨F32.sub (F32.mul a.y b.z) (F32.mul b.y a.z),
   F32.sub (F32.mul a.z b.x) (F32.mul b.z a.x),
   F32.sub (F32.mul a.x b.y) (F32.mul b.x a.y)⟩

end Vec3

/-- The struct `Material` over `float`. -/
structure Material where
  ka : Vec3
  kd : Vec3
  ks : Vec3
  shininess : F32
  kr : Vec3
  ke : Vec3
  transparency : F32
deriving DecidableEq

/-- Modelled from the spec: the `Texture` class is not among the sources.  Its
interface is `isValid() -> bool` and `sample(texCoord: vec2) -> vec3`. -/
structure Texture where
  isValid : Bool
  sample : Vec2 → Vec3

/-- The class `Ray`, seen through `getOrigin()` and `getDirection()`. -/
structure Ray where
  origin : Vec3
  direction : Vec3
deriving DecidableEq

/-- The members of `Vertex` that `intersectRayTriangle` reads: position, normal,
texture coordinate. -/
structure Vertex where
  p : Vec3
  n : Vec3
  t : Vec2

/-- The struct `RayHit` over `float`. -/
structure RayHit where
  t : F32
  position : Vec3
  normal : Vec3
  material : Material
deriving DecidableEq

/-- The members of the object that `intersectRayTriangle` reads: the default
material and the diffuse, specular and emissive textures. -/
structure RasterizableObject where
  m_defaultMaterial : Material
  m_kdTexture : Texture
  m_ksTexture : Texture
  m_keTexture : Texture

/-- The constant `RasterizableObject::SELF_INTERSECTION_BIAS = 1e-3f`: the
decimal `0.001` rounded to binary32. -/
def RasterizableObject.SELF_INTERSECTION_BIAS : F32 := F32.round (1 / 1000)

/-- The local `det` of `intersectRayTriangle`: `dot(e1, cross(rayDir, e2))`. -/
def triDet (ray : Ray) (v0 v1 v2 : Vertex) : F32 :=
  let e1 := v1.p.sub v0.p
  let e2 := v2.p.sub v0.p
  let pVec := ray.direction.cross e2
  e1.dot pVec

/-- The local `b` of `intersectRayTriangle`: `dot(tVec, pVec) * invDet`. -/
def triB (ray : Ray) (v0 v1 v2 : Vertex) : F32 :=
  let e2 := v2.p.sub v0.p
  let pVec := ray.direction.cross e2
  let invDet := F32.div F32.one (triDet ray v0 v1 v2)
  let tVec := ray.origin.sub v0.p
  F32.mul (tVec.dot pVec) invDet

/-- The local `c` of `intersectRayTriangle`: `dot(rayDir, qVec) * invDet`. -/
def triC (ray : Ray) (v0 v1 v2 : Vertex) : F32 :=
  let e1 := v1.p.sub v0.p
  let invDet := F32.div F32.one (triDet ray v0 v1 v2)
  let tVec := ray.origin.sub v0.p
  let qVec := tVec.cross e1
  F32.mul (ray.direction.dot qVec) invDet

/-- The local `t` of `intersectRayTriangle`: `dot(e2, qVec) * invDet`. -/
def triT (ray : Ray) (v0 v1 v2 : Vertex) : F32 :=
  let e1 := v1.p.sub v0.p
  let e2 := v2.p.sub v0.p
  let invDet := F32.div F32.one (triDet ray v0 v1 v2)
  let tVec := ray.origin.sub v0.p
  let qVec := tVec.cross e1
  F32.mul (e2.dot qVec) invDet

/-- The local `a` of `intersectRayTriangle`: `1 - b - c`. -/
def triA (ray : Ray) (v0 v1 v2 : Vertex) : F32 :=
  F32.sub (F32.sub F32.one (triB ray v0 v1 v2)) (triC ray v0 v1 v2)

/-- The local `texCoord` of `intersectRayTriangle`: `a*v0.t + b*v1.t + c*v2.t`. -/
def triTexCoord (ray : Ray) (v0 v1 v2 : Vertex) : Vec2 :=
  ((Vec2.smul (triA ray v0 v1 v2) v0.t).add (Vec2.smul (triB ray v0 v1 v2) v1.t)).add
    (Vec2.smul (triC ray v0 v1 v2) v2.t)

/-- The material block of `intersectRayTriangle`, from `hitResult->material =
m_defaultMaterial` to the last `if`. -/
def RasterizableObject.hitMaterial (obj : RasterizableObject) (texCoord : Vec2) : Material :=
  let m0 := obj.m_defaultMaterial
  let m1 := if obj.m_kdTexture.isValid then { m0 with kd := obj.m_kdTexture.sample texCoord }
    else m0
  let m2 := if obj.m_ksTexture.isValid then { m1 with ks := obj.m_kdTexture.sample texCoord }
    else m1
  let m3 := if obj.m_keTexture.isValid then { m2 with ke := obj.m_keTexture.sample texCoord }
    else m2
  m3

/-- The method `RasterizableObject::intersectRayTriangle` in binary32.  The
accumulator `*hitResult` is passed in and returned next to the boolean result. -/
def RasterizableObject.intersectRayTriangle (obj : RasterizableObject) (ray : Ray)
    (v0 v1 v2 : Vertex) (hitResult : RayHit) : Bool × RayHit :=
  let rayOrigin := ray.origin
  let rayDir := ray.direction
  let det := triDet ray v0 v1 v2
  if F32.eq det F32.zero then (false, hitResult) else
  let b := triB ray v0 v1 v2
  if F32.lt b F32.zero || F32.gt b F32.one then (false, hitResult) else
  let c := triC ray v0 v1 v2
  if F32.lt c F32.zero || F32.gt (F32.add b c) F32.one then (false, hitResult) else
  let t := triT ray v0 v1 v2
  if F32.le t RasterizableObject.SELF_INTERSECTION_BIAS || F32.le hitResult.t t then
    (false, hitResult)
  else
  let a := triA ray v0 v1 v2
  (true,
    { t := t
      position := rayOrigin.add (rayDir.scale t)
      normal := ((Vec3.smul a v0.n).add (Vec3.smul b v1.n)).add (Vec3.smul c v2.n)
      material := obj.hitMaterial (triTexCoord ray v0 v1 v2) })

/-- One call of `intersectRayTriangle`: its ray and its three vertices. -/
structure TriangleCall where
  ray : Ray
  v0 : Vertex
  v1 : Vertex
  v2 : Vertex

/-- A sequence of calls of `intersectRayTriangle` on one accumulator, in order;
the result is the accumulator after the last call. -/
def RasterizableObject.intersectRayTriangleSeq (obj : RasterizableObject)
    (calls : List TriangleCall) (hitResult : RayHit) : RayHit :=
  calls.foldl (fun acc c => (obj.intersectRayTriangle c.ray c.v0 c.v1 c.v2 acc).2) hitResult

/-- The hit record `intersectRayTriangle` writes when it accepts. -/
def RasterizableObject.acceptedHit (obj : RasterizableObject) (ray : Ray)
    (v0 v1 v2 : Vertex) : RayHit :=
  { t := triT ray v0 v1 v2
    position := ray.origin.add (ray.direction.scale (triT ray v0 v1 v2))
    normal :=
      ((Vec3.smul (triA ray v0 v1 v2) v0.n).add (Vec3.smul (triB ray v0 v1 v2) v1.n)).add
        (Vec3.smul (triC ray v0 v1 v2) v2.n)
    material := obj.hitMaterial (triTexCoord ray v0 v1 v2) }

/-- The barycentric tests of `intersectRayTriangle` let the triangle pass: `det
== 0`, `b < 0`, `b > 1`, `c < 0` and `b + c > 1` are all false. -/
def triInside (ray : Ray) (v0 v1 v2 : Vertex) : Bool :=
  !(F32.eq (triDet ray v0 v1 v2) F32.zero) &&
  !(F32.lt (triB ray v0 v1 v2) F32.zero || F32.gt (triB ray v0 v1 v2) F32.one) &&
  !(F32.lt (triC ray v0 v1 v2) F32.zero ||
    F32.gt (F32.add (triB ray v0 v1 v2) (triC ray v0 v1 v2)) F32.one)

/-- The distance test of `intersectRayTriangle` lets the hit pass: `t <=
SELF_INTERSECTION_BIAS` and `hitResult->t <= t` are both false. -/
def triCloser (ray : Ray) (v0 v1 v2 : Vertex) (hitResult : RayHit) : Bool :=
  !(F32.le (triT ray v0 v1 v2) RasterizableObject.SELF_INTERSECTION_BIAS ||
    F32.le hitResult.t (triT ray v0 v1 v2))

/-! ### Binary32 test data -/

/-- The vector of three integers. -/
def vec3 (x y z : Int) : Vec3 := ⟨F32.round x, F32.round y, F32.round z⟩

/-- A vertex at an integer position, with the given normal and texture
coordinate `(0, 0)`. -/
def vertexAt (x y z : Int) (n : Vec3) : Vertex := ⟨vec3 x y z, n, ⟨F32.zero, F32.zero⟩⟩

/-- The ray aimed at the point `p` from the distance `s` along `n`: its origin
is `p + s * n` and its direction `-n`, both computed in binary32. -/
def aimedRay (p n : Vec3) (s : F32) : Ray := ⟨p.add (Vec3.smul s n), n.neg⟩

/-- A material with all fields zero but `transparency = 1`. -/
def plainMaterial : Material :=
  { ka := vec3 0 0 0, kd := vec3 0 0 0, ks := vec3 0 0 0, shininess := F32.zero,
    kr := vec3 0 0 0, ke := vec3 0 0 0, transparency := F32.one }

/-- An object without textures. -/
def plainObject : RasterizableObject :=
  { m_defaultMaterial := plainMaterial
    m_kdTexture := ⟨false, fun _ => vec3 0 0 0⟩
    m_ksTexture := ⟨false, fun _ => vec3 0 0 0⟩
    m_keTexture := ⟨false, fun _ => vec3 0 0 0⟩ }

/-- A hit record holding the distance `t` and nothing else of interest. -/
def hitWith (t : F32) : RayHit :=
  { t := t, position := vec3 0 0 0, normal := vec3 0 0 0, material := plainMaterial }

/-- The ray from `(x, y, z)` in direction `(0, 0, -1)`. -/
def rayDown (x y z : F32) : Ray := ⟨⟨x, y, z⟩, vec3 0 0 (-1)⟩

/-- The call on the unit triangle `(0,0,0), (1,0,0), (0,1,0)` with the ray from
`(0.25, 0.25, z)` downwards. -/
def unitCall (z : F32) : TriangleCall :=
  { ray := rayDown (F32.fin (1 / 4)) (F32.fin (1 / 4)) z
    v0 := vertexAt 0 0 0 (vec3 0 0 1)
    v1 := vertexAt 1 0 0 (vec3 0 0 1)
    v2 := vertexAt 0 1 0 (vec3 0 0 1) }

/-- The call on the triangle `(0,0,0), (2^64,0,0), (0,2^64,0)` with the ray
from `(2^62, 2^62, 5)` downwards: all inputs are finite binary32 numbers. -/
def hugeCall : TriangleCall :=
  { ray := rayDown (F32.round (2 ^ 62)) (F32.round (2 ^ 62)) (F32.round 5)
    v0 := vertexAt 0 0 0 (vec3 0 0 1)
    v1 := vertexAt (2 ^ 64) 0 0 (vec3 0 0 1)
    v2 := vertexAt 0 (2 ^ 64) 0 (vec3 0 0 1) }

/-- The first vertex of a triangle with integer coordinates. -/
def slantV0 : Vertex := vertexAt 787 (-892) (-86) (vec3 1 0 0)

/-- The second vertex of the triangle with integer coordinates. -/
def slantV1 : Vertex := vertexAt 22 890 (-212) (vec3 0 1 0)

/-- The third vertex of the triangle with integer coordinates. -/
def slantV2 : Vertex := vertexAt (-654) 521 (-37) (vec3 0 0 1)

/-- The direction `n = (-2, 8, 9)` along which the slanted triangle is seen. -/
def slantN : Vec3 := vec3 (-2) 8 9

end Binary32

/-! ## Theorems -/

/-- The triangle test accepts exactly when `triAccepts` holds; it then writes
`acceptedHit`, and otherwise leaves the accumulator as it was. -/
theorem intersectRayTriangle_eq_ite (obj : RasterizableObject) (ray : Ray)
    (v0 v1 v2 : Vertex) (hitResult : RayHit) :
    obj.intersectRayTriangle ray v0 v1 v2 hitResult =
      if triAccepts ray v0 v1 v2 hitResult then (true, obj.acceptedHit ray v0 v1 v2)
      else (false, hitResult) := by
  unfold RasterizableObject.intersectRayTriangle triAccepts RasterizableObject.acceptedHit
  by_cases hdet : triDet ray v0 v1 v2 = 0
  · simp [hdet]
  by_cases hb : triB ray v0 v1 v2 < 0 ∨ triB ray v0 v1 v2 > 1
  · have : ¬ (0 ≤ triB ray v0 v1 v2 ∧ triB ray v0 v1 v2 ≤ 1) := by
      rintro ⟨h0, h1⟩
      rcases hb with hb | hb
      · exact absurd h0 (not_le.mpr hb)
      · exact absurd h1 (not_le.mpr hb)
    simp [hdet, hb, this]
  have hb2 : 0 ≤ triB ray v0 v1 v2 ∧ triB ray v0 v1 v2 ≤ 1 := by
    constructor
    · exact not_lt.mp fun h => hb (Or.inl h)
    · exact not_lt.mp fun h => hb (Or.inr h)
  by_cases hc : triC ray v0 v1 v2 < 0 ∨ triB ray v0 v1 v2 + triC ray v0 v1 v2 > 1
  · have : ¬ (0 ≤ triC ray v0 v1 v2 ∧ triB ray v0 v1 v2 + triC ray v0 v1 v2 ≤ 1) := by
      rintro ⟨h0, h1⟩
      rcases hc with hc | hc
      · exact absurd h0 (not_le.mpr hc)
      · exact absurd h1 (not_le.mpr hc)
    simp only [hdet, hb, hc, this, if_true, if_false, false_and, and_false, not_false_eq_true]
  have hc2 : 0 ≤ triC ray v0 v1 v2 ∧ triB ray v0 v1 v2 + triC ray v0 v1 v2 ≤ 1 := by
    constructor
    · exact not_lt.mp fun h => hc (Or.inl h)
    · exact not_lt.mp fun h => hc (Or.inr h)
  by_cases ht : triT ray v0 v1 v2 ≤ RasterizableObject.SELF_INTERSECTION_BIAS ∨
      hitResult.t ≤ (triT ray v0 v1 v2 : WithTop ℚ)
  · have : ¬ (RasterizableObject.SELF_INTERSECTION_BIAS < triT ray v0 v1 v2 ∧
        (triT ray v0 v1 v2 : WithTop ℚ) < hitResult.t) := by
      rintro ⟨h0, h1⟩
      rcases ht with ht | ht
      · exact absurd h0 (not_lt.mpr ht)
      · exact absurd h1 (not_lt.mpr ht)
    simp only [hdet, hb, hc, ht, this, hb2, hc2, if_true, if_false, and_false,
      not_false_eq_true, ne_eq, and_true]
  have ht2 : RasterizableObject.SELF_INTERSECTION_BIAS < triT ray v0 v1 v2 ∧
      (triT ray v0 v1 v2 : WithTop ℚ) < hitResult.t := by
    constructor
    · exact not_le.mp fun h => ht (Or.inl h)
    · exact not_le.mp fun h => ht (Or.inr h)
  simp only [hdet, hb, hc, ht, hb2, hc2, ht2, if_true, if_false, and_self,
      not_false_eq_true, ne_eq]

/-- C4: when `det` is exactly zero, `intersectRayTriangle` returns `false` and
leaves the accumulator as it was, whatever the ray, the vertices and the
accumulator are.  (In the definition the test on `det` precedes every use of
`1 / det`.) -/
theorem intersectRayTriangle_det_zero (obj : RasterizableObject) (ray : Ray)
    (v0 v1 v2 : Vertex) (hitResult : RayHit) (h : triDet ray v0 v1 v2 = 0) :
    obj.intersectRayTriangle ray v0 v1 v2 hitResult = (false, hitResult) := by
  rw [intersectRayTriangle_eq_ite, if_neg]
  exact fun hacc => hacc.1 h

/-- Witness of C4: a ray running inside the plane of the unit triangle. -/
theorem intersectRayTriangle_det_zero_witness :
    triDet ⟨⟨0, 0, 1⟩, ⟨1, 0, 0⟩⟩ (vertexAt 0 0 0) (vertexAt 1 0 0) (vertexAt 0 1 0) = 0 ∧
    unitTriangleObject.intersectRayTriangle ⟨⟨0, 0, 1⟩, ⟨1, 0, 0⟩⟩
      (vertexAt 0 0 0) (vertexAt 1 0 0) (vertexAt 0 1 0) RayHit.noHit = (false, RayHit.noHit) :=
  ⟨by decide!, intersectRayTriangle_det_zero _ _ _ _ _ _ (by decide!)⟩

/-- C5: with `det ≠ 0`, a triangle is rejected whenever `b < 0`, `b > 1`,
`c < 0` or `b + c > 1`; and a hit with `0 ≤ b ≤ 1`, `c ≥ 0`, `b + c ≤ 1`
(boundary values included), `t` above the bias and below the accumulated best
is accepted. -/
theorem intersectRayTriangle_barycentric (obj : RasterizableObject) (ray : Ray)
    (v0 v1 v2 : Vertex) (hitResult : RayHit) (hdet : triDet ray v0 v1 v2 ≠ 0) :
    ((triB ray v0 v1 v2 < 0 ∨ triB ray v0 v1 v2 > 1 ∨ triC ray v0 v1 v2 < 0 ∨
        triB ray v0 v1 v2 + triC ray v0 v1 v2 > 1) →
      obj.intersectRayTriangle ray v0 v1 v2 hitResult = (false, hitResult)) ∧
    ((0 ≤ triB ray v0 v1 v2 ∧ triB ray v0 v1 v2 ≤ 1 ∧ 0 ≤ triC ray v0 v1 v2 ∧
        triB ray v0 v1 v2 + triC ray v0 v1 v2 ≤ 1 ∧
        RasterizableObject.SELF_INTERSECTION_BIAS < triT ray v0 v1 v2 ∧
        (triT ray v0 v1 v2 : WithTop ℚ) < hitResult.t) →
      (obj.intersectRayTriangle ray v0 v1 v2 hitResult).1 = true) := by
  constructor
  · intro h
    rw [intersectRayTriangle_eq_ite, if_neg]
    rintro ⟨_, ⟨hb0, hb1⟩, ⟨hc0, hbc⟩, _⟩
    rcases h with h | h | h | h
    · exact absurd hb0 (not_le.mpr h)
    · exact absurd hb1 (not_le.mpr h)
    · exact absurd hc0 (not_le.mpr h)
    · exact absurd hbc (not_le.mpr h)
  · rintro ⟨hb0, hb1, hc0, hbc, ht, hacc⟩
    rw [intersectRayTriangle_eq_ite, if_pos ⟨hdet, ⟨hb0, hb1⟩, ⟨hc0, hbc⟩, ht, hacc⟩]

/-- Witness of C5: the ray aimed at the corner `(1,0,0)` has `b = 1`, `c = 0`
and is accepted; the ray through `(0.9, 0.9)` has `b + c > 1` and is rejected. -/
theorem intersectRayTriangle_barycentric_witness :
    (triB (rayDown 1 0 5) (vertexAt 0 0 0) (vertexAt 1 0 0) (vertexAt 0 1 0) = 1 ∧
      triC (rayDown 1 0 5) (vertexAt 0 0 0) (vertexAt 1 0 0) (vertexAt 0 1 0) = 0 ∧
      (unitTriangleObject.intersectRayTriangle (rayDown 1 0 5)
        (vertexAt 0 0 0) (vertexAt 1 0 0) (vertexAt 0 1 0) RayHit.noHit).1 = true) ∧
    unitTriangleObject.intersectRayTriangle (rayDown (9/10) (9/10) 5)
      (vertexAt 0 0 0) (vertexAt 1 0 0) (vertexAt 0 1 0) RayHit.noHit = (false, RayHit.noHit) :=
  ⟨⟨by decide!, by decide!,
    (intersectRayTriangle_barycentric unitTriangleObject (rayDown 1 0 5)
      (vertexAt 0 0 0) (vertexAt 1 0 0) (vertexAt 0 1 0) RayHit.noHit (by decide!)).2
      (by decide!)⟩,
   (intersectRayTriangle_barycentric unitTriangleObject (rayDown (9/10) (9/10) 5)
      (vertexAt 0 0 0) (vertexAt 1 0 0) (vertexAt 0 1 0) RayHit.noHit (by decide!)).1
      (by decide!)⟩

/-- With the identity model matrix a vertex keeps its position. -/
theorem vertexToWorld_identity_p (normalize : Vec3 → Vec3) (obj : RasterizableObject)
    (h : obj.m_vModelMatrix = Mat4.identity) (v : Vertex) :
    (obj.vertexToWorld normalize v).p = v.p := by
  simp [RasterizableObject.vertexToWorld, h, Mat4.identity, Mat4.mulVec, Vec4.dot,
    Vec4.ofVec3, Vec4.toVec3]

/-- On a mesh of one triangle, `intersectRay` is one triangle test on the fresh
accumulator. -/
theorem intersectRay_single (normalize : Vec3 → Vec3) (obj : RasterizableObject) (ray : Ray)
    (a0 a1 a2 : Vertex) (h : obj.m_mesh.vertices = [a0, a1, a2]) :
    obj.intersectRay normalize ray =
      some (if triAccepts ray (obj.vertexToWorld normalize a0) (obj.vertexToWorld normalize a1)
          (obj.vertexToWorld normalize a2) { RayHit.noHit with t := ⊤ } then
        obj.acceptedHit ray (obj.vertexToWorld normalize a0) (obj.vertexToWorld normalize a1)
          (obj.vertexToWorld normalize a2)
      else RayHit.noHit) := by
  simp only [RasterizableObject.intersectRay, RasterizableObject.m_nVertices, h,
    List.length_cons, List.length_nil, RasterizableObject.intersectRayLoop]
  simp only [intersectRayTriangle_eq_ite]
  by_cases hacc : triAccepts ray (obj.vertexToWorld normalize a0)
      (obj.vertexToWorld normalize a1) (obj.vertexToWorld normalize a2)
      { RayHit.noHit with t := ⊤ }
  · simp [hacc]
  · simp [hacc]

/-- C7: on the single-triangle mesh `(0,0,0), (1,0,0), (0,1,0)` with normals
`(0,0,1)`, identity model matrix, no texture maps and default `kd = (1,0,0)`,
the ray from `(0.2, 0.2, 5)` in direction `(0,0,-1)` returns a hit with `t = 5`,
`position = (0.2, 0.2, 0)` and `material.kd = (1,0,0)`, and the ray from
`(0.9, 0.9, 5)` returns the no-hit record; whatever `glm::normalize`,
`glm::inverse` and the texture loader are. -/
theorem intersectRay_unitTriangle_scenario (normalize : Vec3 → Vec3)
    (loadTexture : String → Texture) (inverse : Mat4 → Mat4) :
    ((RasterizableObject.new loadTexture inverse unitTriangleMesh
          (configWith false false false (diffuseMaterial ⟨1, 0, 0⟩)) Mat4.identity).intersectRay
          normalize (rayDown (1/5) (1/5) 5)).map (fun h => (h.t, h.position, h.material.kd))
      = some (((5 : ℚ) : WithTop ℚ), (⟨1/5, 1/5, 0⟩ : Vec3), (⟨1, 0, 0⟩ : Vec3)) ∧
    (RasterizableObject.new loadTexture inverse unitTriangleMesh
        (configWith false false false (diffuseMaterial ⟨1, 0, 0⟩)) Mat4.identity).intersectRay
        normalize (rayDown (9/10) (9/10) 5) = some RayHit.noHit := by
  -- the four scalars of the test depend on the positions only
  have hd : ∀ (r : Ray) (n0 n1 n2 : Vec3) (t0 t1 t2 : Vec2) (g0 g1 g2 : Vec3),
      r.direction = ⟨0, 0, -1⟩ →
      triDet r ⟨⟨0, 0, 0⟩, n0, t0, g0⟩ ⟨⟨1, 0, 0⟩, n1, t1, g1⟩ ⟨⟨0, 1, 0⟩, n2, t2, g2⟩
        = 1 := by
    intro r n0 n1 n2 t0 t1 t2 g0 g1 g2 h
    simp [triDet, h, Vec3.sub, Vec3.dot, Vec3.cross]
  have hb : ∀ (x y z : ℚ) (n0 n1 n2 : Vec3) (t0 t1 t2 : Vec2) (g0 g1 g2 : Vec3),
      triB (rayDown x y z)
        ⟨⟨0, 0, 0⟩, n0, t0, g0⟩ ⟨⟨1, 0, 0⟩, n1, t1, g1⟩ ⟨⟨0, 1, 0⟩, n2, t2, g2⟩ = x := by
    intro x y z n0 n1 n2 t0 t1 t2 g0 g1 g2
    simp [triB, hd, rayDown, Vec3.sub, Vec3.dot, Vec3.cross]
  have hc : ∀ (x y z : ℚ) (n0 n1 n2 : Vec3) (t0 t1 t2 : Vec2) (g0 g1 g2 : Vec3),
      triC (rayDown x y z)
        ⟨⟨0, 0, 0⟩, n0, t0, g0⟩ ⟨⟨1, 0, 0⟩, n1, t1, g1⟩ ⟨⟨0, 1, 0⟩, n2, t2, g2⟩ = y := by
    intro x y z n0 n1 n2 t0 t1 t2 g0 g1 g2
    simp [triC, hd, rayDown, Vec3.sub, Vec3.dot, Vec3.cross]
  have ht : ∀ (x y z : ℚ) (n0 n1 n2 : Vec3) (t0 t1 t2 : Vec2) (g0 g1 g2 : Vec3),
      triT (rayDown x y z)
        ⟨⟨0, 0, 0⟩, n0, t0, g0⟩ ⟨⟨1, 0, 0⟩, n1, t1, g1⟩ ⟨⟨0, 1, 0⟩, n2, t2, g2⟩ = z := by
    intro x y z n0 n1 n2 t0 t1 t2 g0 g1 g2
    simp [triT, hd, rayDown, Vec3.sub, Vec3.dot, Vec3.cross]
  -- the identity model matrix keeps positions and texture coordinates
  have hw : ∀ x y z : ℚ,
      (RasterizableObject.new loadTexture inverse unitTriangleMesh
        (configWith false false false (diffuseMaterial ⟨1, 0, 0⟩)) Mat4.identity).vertexToWorld
        normalize (vertexAt x y z) =
      ⟨⟨x, y, z⟩,
        normalize ((inverse Mat4.identity).transpose.mulVec ⟨0, 0, 1, 0⟩).toVec3,
        ⟨x, y⟩, Vec3.zero⟩ := by
    intro x y z
    simp [RasterizableObject.vertexToWorld, RasterizableObject.new, vertexAt, Mat4.identity,
      Mat4.mulVec, Vec4.dot, Vec4.ofVec3, Vec4.toVec3]
  constructor
  · rw [intersectRay_single normalize _ _ (vertexAt 0 0 0) (vertexAt 1 0 0) (vertexAt 0 1 0) rfl]
    simp only [hw]
    rw [if_pos]
    · simp only [RasterizableObject.acceptedHit, ht]
      simp [rayDown, Vec3.add, Vec3.smul, RenderableObject.hitMaterial,
        RasterizableObject.new, RenderableObject.new, configWith, Texture.absent,
        diffuseMaterial]
    · refine ⟨?_, ?_, ?_, ?_, ?_⟩
      · rw [hd _ _ _ _ _ _ _ _ _ _ rfl]; norm_num
      · rw [hb]; norm_num
      · rw [hb, hc]; norm_num
      · rw [ht]; norm_num [RasterizableObject.SELF_INTERSECTION_BIAS]
      · rw [ht]; exact WithTop.coe_lt_top _
  · rw [intersectRay_single normalize _ _ (vertexAt 0 0 0) (vertexAt 1 0 0) (vertexAt 0 1 0) rfl]
    simp only [hw]
    rw [if_neg]
    rintro ⟨_, _, ⟨_, h⟩, _⟩
    rw [hb, hc] at h
    norm_num at h

/-- The loop of `intersectRay` never reads past the end of the mesh when the
remaining iterations fit in it. -/
theorem intersectRayLoop_isSome (normalize : Vec3 → Vec3) (obj : RasterizableObject)
    (ray : Ray) :
    ∀ (n i : Nat) (st : Bool × RayHit), i + 3 * n ≤ obj.m_mesh.vertices.length →
      (obj.intersectRayLoop normalize ray n i st).isSome = true := by
  intro n
  induction n with
  | zero =>
    intro i st _
    rfl
  | succ n ih =>
    intro i st hlen
    obtain ⟨isHit, hitResult⟩ := st
    have h0 : i < obj.m_mesh.vertices.length := by omega
    have h1 : i + 1 < obj.m_mesh.vertices.length := by omega
    have h2 : i + 2 < obj.m_mesh.vertices.length := by omega
    cases isHit with
    | true =>
      simp only [RasterizableObject.intersectRayLoop, if_true]
      exact ih (i + 3) _ (by omega)
    | false =>
      simp only [RasterizableObject.intersectRayLoop, Bool.false_eq_true, if_false,
        List.getElem?_eq_getElem h0, List.getElem?_eq_getElem h1,
        List.getElem?_eq_getElem h2, Option.bind_eq_bind, Option.some_bind]
      exact ih (i + 3) _ (by omega)

/-- On a mesh whose vertex count is a multiple of 3, `intersectRay` returns a
hit record. -/
theorem intersectRay_isSome (normalize : Vec3 → Vec3) (obj : RasterizableObject)
    (ray : Ray) (h : obj.m_nVertices % 3 = 0) :
    (obj.intersectRay normalize ray).isSome = true := by
  unfold RasterizableObject.intersectRay
  rw [Option.isSome_map']
  apply intersectRayLoop_isSome
  unfold RasterizableObject.m_nVertices at h ⊢
  omega

/-- C1, at the failing input: on `farThenNearMesh` the ray from `(0.2, 0.2, 5)`
downwards hits the first triangle at `t = 5` and the second at `t = 4`
(the second triangle, tested on the fresh accumulator, is accepted with
`t = 4`), yet `intersectRay` returns the hit with `t = 5`: once `isHit` is set,
`isHit || intersectRayTriangle(...)` tests no further triangle. -/
theorem intersectRay_returns_first_hit_not_nearest :
    ((farThenNearObject.intersectRay id (rayDown (1/5) (1/5) 5)).map fun h => h.t)
      = some ((5 : ℚ) : WithTop ℚ) ∧
    (farThenNearObject.intersectRayTriangle (rayDown (1/5) (1/5) 5)
        (farThenNearObject.vertexToWorld id (vertexAt 0 0 0))
        (farThenNearObject.vertexToWorld id (vertexAt 1 0 0))
        (farThenNearObject.vertexToWorld id (vertexAt 0 1 0))
        { RayHit.noHit with t := ⊤ }).1 = true ∧
    ((fun r : Bool × RayHit => (r.1, r.2.t))
      (farThenNearObject.intersectRayTriangle (rayDown (1/5) (1/5) 5)
        (farThenNearObject.vertexToWorld id (vertexAt 0 0 1))
        (farThenNearObject.vertexToWorld id (vertexAt 1 0 1))
        (farThenNearObject.vertexToWorld id (vertexAt 0 1 1))
        { RayHit.noHit with t := ⊤ })) = (true, ((4 : ℚ) : WithTop ℚ)) := by
  refine ⟨?_, ?_, ?_⟩ <;> decide!

/-- For a ray along `-n`, `det` is the triple product `n · (e1 × e2)`. -/
theorem triDet_aimedRay (q n : Vec3) (s : ℚ) (v0 v1 v2 : Vertex) :
    triDet (aimedRay q n s) v0 v1 v2 = n.dot ((v1.p.sub v0.p).cross (v2.p.sub v0.p)) := by
  simp only [triDet, aimedRay, Vec3.sub, Vec3.dot, Vec3.cross, Vec3.neg]
  ring

/-- The values of `b`, `c`, `t` for the ray aimed at the first vertex. -/
theorem tri_aimedRay_v0 (n : Vec3) (s : ℚ) (v0 v1 v2 : Vertex)
    (hn : n.dot ((v1.p.sub v0.p).cross (v2.p.sub v0.p)) ≠ 0) :
    triB (aimedRay v0.p n s) v0 v1 v2 = 0 ∧ triC (aimedRay v0.p n s) v0 v1 v2 = 0 ∧
    triT (aimedRay v0.p n s) v0 v1 v2 = s := by
  have hd := triDet_aimedRay v0.p n s v0 v1 v2
  rw [← hd] at hn
  refine ⟨?_, ?_, ?_⟩
  · simp only [triB]
    rw [mul_one_div, div_eq_iff hn]
    simp only [triDet, aimedRay, Vec3.sub, Vec3.dot, Vec3.cross, Vec3.neg, Vec3.add, Vec3.smul]
    ring
  · simp only [triC]
    rw [mul_one_div, div_eq_iff hn]
    simp only [triDet, aimedRay, Vec3.sub, Vec3.dot, Vec3.cross, Vec3.neg, Vec3.add, Vec3.smul]
    ring
  · simp only [triT]
    rw [mul_one_div, div_eq_iff hn]
    simp only [triDet, aimedRay, Vec3.sub, Vec3.dot, Vec3.cross, Vec3.neg, Vec3.add, Vec3.smul]
    ring

/-- The values of `b`, `c`, `t` for the ray aimed at the second vertex. -/
theorem tri_aimedRay_v1 (n : Vec3) (s : ℚ) (v0 v1 v2 : Vertex)
    (hn : n.dot ((v1.p.sub v0.p).cross (v2.p.sub v0.p)) ≠ 0) :
    triB (aimedRay v1.p n s) v0 v1 v2 = 1 ∧ triC (aimedRay v1.p n s) v0 v1 v2 = 0 ∧
    triT (aimedRay v1.p n s) v0 v1 v2 = s := by
  have hd := triDet_aimedRay v1.p n s v0 v1 v2
  rw [← hd] at hn
  refine ⟨?_, ?_, ?_⟩
  · simp only [triB]
    rw [mul_one_div, div_eq_iff hn]
    simp only [triDet, aimedRay, Vec3.sub, Vec3.dot, Vec3.cross, Vec3.neg, Vec3.add, Vec3.smul]
    ring
  · simp only [triC]
    rw [mul_one_div, div_eq_iff hn]
    simp only [triDet, aimedRay, Vec3.sub, Vec3.dot, Vec3.cross, Vec3.neg, Vec3.add, Vec3.smul]
    ring
  · simp only [triT]
    rw [mul_one_div, div_eq_iff hn]
    simp only [triDet, aimedRay, Vec3.sub, Vec3.dot, Vec3.cross, Vec3.neg, Vec3.add, Vec3.smul]
    ring

/-- The values of `b`, `c`, `t` for the ray aimed at the third vertex. -/
theorem tri_aimedRay_v2 (n : Vec3) (s : ℚ) (v0 v1 v2 : Vertex)
    (hn : n.dot ((v1.p.sub v0.p).cross (v2.p.sub v0.p)) ≠ 0) :
    triB (aimedRay v2.p n s) v0 v1 v2 = 0 ∧ triC (aimedRay v2.p n s) v0 v1 v2 = 1 ∧
    triT (aimedRay v2.p n s) v0 v1 v2 = s := by
  have hd := triDet_aimedRay v2.p n s v0 v1 v2
  rw [← hd] at hn
  refine ⟨?_, ?_, ?_⟩
  · simp only [triB]
    rw [mul_one_div, div_eq_iff hn]
    simp only [triDet, aimedRay, Vec3.sub, Vec3.dot, Vec3.cross, Vec3.neg, Vec3.add, Vec3.smul]
    ring
  · simp only [triC]
    rw [mul_one_div, div_eq_iff hn]
    simp only [triDet, aimedRay, Vec3.sub, Vec3.dot, Vec3.cross, Vec3.neg, Vec3.add, Vec3.smul]
    ring
  · simp only [triT]
    rw [mul_one_div, div_eq_iff hn]
    simp only [triDet, aimedRay, Vec3.sub, Vec3.dot, Vec3.cross, Vec3.neg, Vec3.add, Vec3.smul]
    ring

/-- A ray aimed at the point `q` whose triangle test yields `t = s`, with
weights `b`, `c` inside the triangle, is accepted on a fresh accumulator, and
the hit is recorded at `q` with the normal `(1-b-c) n0 + b n1 + c n2`. -/
theorem intersectRayTriangle_aimedRay (obj : RasterizableObject) (q n : Vec3) (s : ℚ)
    (v0 v1 v2 : Vertex) (hitResult : RayHit) (b c : ℚ)
    (hn : n.dot ((v1.p.sub v0.p).cross (v2.p.sub v0.p)) ≠ 0)
    (hs : RasterizableObject.SELF_INTERSECTION_BIAS < s) (hfresh : hitResult.t = ⊤)
    (hB : triB (aimedRay q n s) v0 v1 v2 = b) (hC : triC (aimedRay q n s) v0 v1 v2 = c)
    (hT : triT (aimedRay q n s) v0 v1 v2 = s)
    (hb : 0 ≤ b ∧ b ≤ 1) (hc : 0 ≤ c ∧ b + c ≤ 1) :
    (obj.intersectRayTriangle (aimedRay q n s) v0 v1 v2 hitResult).1 = true ∧
    (obj.intersectRayTriangle (aimedRay q n s) v0 v1 v2 hitResult).2.t = (s : WithTop ℚ) ∧
    (obj.intersectRayTriangle (aimedRay q n s) v0 v1 v2 hitResult).2.position = q ∧
    (obj.intersectRayTriangle (aimedRay q n s) v0 v1 v2 hitResult).2.normal =
      ((Vec3.smul (1 - b - c) v0.n).add (Vec3.smul b v1.n)).add (Vec3.smul c v2.n) := by
  have hacc : triAccepts (aimedRay q n s) v0 v1 v2 hitResult := by
    refine ⟨?_, ?_, ?_, ?_, ?_⟩
    · rw [triDet_aimedRay]; exact hn
    · rw [hB]; exact hb
    · rw [hB, hC]; exact hc
    · rw [hT]; exact hs
    · rw [hfresh]; exact WithTop.coe_lt_top _
  rw [intersectRayTriangle_eq_ite, if_pos hacc]
  refine ⟨rfl, ?_, ?_, ?_⟩
  · simp only [RasterizableObject.acceptedHit, hT]
  · simp only [RasterizableObject.acceptedHit, hT]
    simp only [aimedRay, Vec3.add, Vec3.smul, Vec3.neg]
    cases q
    simp
  · simp only [RasterizableObject.acceptedHit, hB, hC]

/-- C10, amended: in exact (rational) arithmetic, for a triangle and a direction
`n` with `n · (e1 × e2) ≠ 0` (the triangle is non-degenerate and `n` is not
parallel to its plane), the ray from `vertex + s * n` in direction `-n` with `s`
above the bias `1e-3`, tested on a fresh accumulator (`t = +infinity`), is
accepted for each of the three vertices, at distance `s`; the recorded position
is that vertex's position and the recorded normal is that vertex's normal. -/
theorem intersectRayTriangle_at_vertex (obj : RasterizableObject) (n : Vec3) (s : ℚ)
    (v0 v1 v2 : Vertex) (hitResult : RayHit)
    (hn : n.dot ((v1.p.sub v0.p).cross (v2.p.sub v0.p)) ≠ 0)
    (hs : RasterizableObject.SELF_INTERSECTION_BIAS < s) (hfresh : hitResult.t = ⊤) :
    ((obj.intersectRayTriangle (aimedRay v0.p n s) v0 v1 v2 hitResult).1 = true ∧
      (obj.intersectRayTriangle (aimedRay v0.p n s) v0 v1 v2 hitResult).2.t = (s : WithTop ℚ) ∧
      (obj.intersectRayTriangle (aimedRay v0.p n s) v0 v1 v2 hitResult).2.position = v0.p ∧
      (obj.intersectRayTriangle (aimedRay v0.p n s) v0 v1 v2 hitResult).2.normal = v0.n) ∧
    ((obj.intersectRayTriangle (aimedRay v1.p n s) v0 v1 v2 hitResult).1 = true ∧
      (obj.intersectRayTriangle (aimedRay v1.p n s) v0 v1 v2 hitResult).2.t = (s : WithTop ℚ) ∧
      (obj.intersectRayTriangle (aimedRay v1.p n s) v0 v1 v2 hitResult).2.position = v1.p ∧
      (obj.intersectRayTriangle (aimedRay v1.p n s) v0 v1 v2 hitResult).2.normal = v1.n) ∧
    ((obj.intersectRayTriangle (aimedRay v2.p n s) v0 v1 v2 hitResult).1 = true ∧
      (obj.intersectRayTriangle (aimedRay v2.p n s) v0 v1 v2 hitResult).2.t = (s : WithTop ℚ) ∧
      (obj.intersectRayTriangle (aimedRay v2.p n s) v0 v1 v2 hitResult).2.position = v2.p ∧
      (obj.intersectRayTriangle (aimedRay v2.p n s) v0 v1 v2 hitResult).2.normal = v2.n) := by
  obtain ⟨hB0, hC0, hT0⟩ := tri_aimedRay_v0 n s v0 v1 v2 hn
  obtain ⟨hB1, hC1, hT1⟩ := tri_aimedRay_v1 n s v0 v1 v2 hn
  obtain ⟨hB2, hC2, hT2⟩ := tri_aimedRay_v2 n s v0 v1 v2 hn
  have h0 := intersectRayTriangle_aimedRay obj v0.p n s v0 v1 v2 hitResult 0 0 hn hs hfresh
    hB0 hC0 hT0 (by norm_num) (by norm_num)
  have h1 := intersectRayTriangle_aimedRay obj v1.p n s v0 v1 v2 hitResult 1 0 hn hs hfresh
    hB1 hC1 hT1 (by norm_num) (by norm_num)
  have h2 := intersectRayTriangle_aimedRay obj v2.p n s v0 v1 v2 hitResult 0 1 hn hs hfresh
    hB2 hC2 hT2 (by norm_num) (by norm_num)
  refine ⟨⟨h0.1, h0.2.1, h0.2.2.1, ?_⟩, ⟨h1.1, h1.2.1, h1.2.2.1, ?_⟩,
    ⟨h2.1, h2.2.1, h2.2.2.1, ?_⟩⟩
  · rw [h0.2.2.2]
    cases v0.n
    simp [Vec3.add, Vec3.smul]
  · rw [h1.2.2.2]
    cases v1.n
    simp [Vec3.add, Vec3.smul]
  · rw [h2.2.2.2]
    cases v2.n
    simp [Vec3.add, Vec3.smul]

/-- Witness of C10 (amended): the unit triangle with three different vertex
normals, seen from above (`n = (0,0,1)`) at distance `2`. -/
theorem intersectRayTriangle_at_vertex_witness :
    (⟨0, 0, 1⟩ : Vec3).dot
        (((⟨1, 0, 0⟩ : Vec3).sub ⟨0, 0, 0⟩).cross ((⟨0, 1, 0⟩ : Vec3).sub ⟨0, 0, 0⟩)) ≠ 0 ∧
    (unitTriangleObject.intersectRayTriangle (aimedRay ⟨1, 0, 0⟩ ⟨0, 0, 1⟩ 2)
      ⟨⟨0, 0, 0⟩, ⟨1, 0, 0⟩, ⟨0, 0⟩, Vec3.zero⟩ ⟨⟨1, 0, 0⟩, ⟨0, 1, 0⟩, ⟨1, 0⟩, Vec3.zero⟩
      ⟨⟨0, 1, 0⟩, ⟨0, 0, 1⟩, ⟨0, 1⟩, Vec3.zero⟩ RayHit.noHit).2.normal = ⟨0, 1, 0⟩ :=
  ⟨by decide!,
   (intersectRayTriangle_at_vertex unitTriangleObject ⟨0, 0, 1⟩ 2
      ⟨⟨0, 0, 0⟩, ⟨1, 0, 0⟩, ⟨0, 0⟩, Vec3.zero⟩ ⟨⟨1, 0, 0⟩, ⟨0, 1, 0⟩, ⟨1, 0⟩, Vec3.zero⟩
      ⟨⟨0, 1, 0⟩, ⟨0, 0, 1⟩, ⟨0, 1⟩, Vec3.zero⟩ RayHit.noHit
      (by decide!) (by decide!) rfl).2.1.2.2.2⟩

/-- What the loop of `firstRayHit` computes: either no object of the list
improves on the running best and the state is unchanged, or the state holds the
hit of the object at the smallest index among those of smallest qualifying
distance. -/
theorem firstRayHitLoop_spec (ray : Ray) (os : List RayTracableObject) :
    ∀ (i : Int) (firstHit : RayHit) (firstHitIndex : Int),
      (Scene.firstRayHitLoop ray os i (firstHit, firstHitIndex) = (firstHit, firstHitIndex) ∧
        ∀ o ∈ os, ¬ ((Scene.SELF_INTERSECTION_BIAS : WithTop ℚ) < (o.intersectRay ray).t ∧
          (o.intersectRay ray).t < firstHit.t)) ∨
      (∃ (k : Nat) (o : RayTracableObject), os[k]? = some o ∧
        Scene.firstRayHitLoop ray os i (firstHit, firstHitIndex) = (o.intersectRay ray, i + k) ∧
        (Scene.SELF_INTERSECTION_BIAS : WithTop ℚ) < (o.intersectRay ray).t ∧
        (o.intersectRay ray).t < firstHit.t ∧
        (∀ (j : Nat) (p : RayTracableObject), os[j]? = some p →
          (Scene.SELF_INTERSECTION_BIAS : WithTop ℚ) < (p.intersectRay ray).t →
          (o.intersectRay ray).t ≤ (p.intersectRay ray).t) ∧
        (∀ (j : Nat) (p : RayTracableObject), os[j]? = some p → j < k →
          (Scene.SELF_INTERSECTION_BIAS : WithTop ℚ) < (p.intersectRay ray).t →
          (o.intersectRay ray).t < (p.intersectRay ray).t)) := by
  induction os with
  | nil =>
    intro i firstHit firstHitIndex
    left
    exact ⟨rfl, by simp⟩
  | cons a os ih =>
    intro i firstHit firstHitIndex
    by_cases hq : (a.intersectRay ray).t > (Scene.SELF_INTERSECTION_BIAS : WithTop ℚ) ∧
        (a.intersectRay ray).t < firstHit.t
    · right
      have hstep : Scene.firstRayHitLoop ray (a :: os) i (firstHit, firstHitIndex) =
          Scene.firstRayHitLoop ray os (i + 1) (a.intersectRay ray, i) := by
        simp only [Scene.firstRayHitLoop]
        rw [if_pos hq]
      rcases ih (i + 1) (a.intersectRay ray) i with
        ⟨heq, hnone⟩ | ⟨k, o, hk, heq, hb, hlt, hmin, hfirst⟩
      · refine ⟨0, a, by simp, ?_, hq.1, hq.2, ?_, ?_⟩
        · rw [hstep, heq]; simp
        · intro j p hj hbp
          cases j with
          | zero =>
            simp at hj
            rw [hj]
          | succ j =>
            simp at hj
            have hp : p ∈ os := List.getElem?_mem hj
            exact not_lt.mp fun h => hnone p hp ⟨hbp, h⟩
        · intro j p _ hj0
          exact absurd hj0 (Nat.not_lt_zero j)
      · refine ⟨k + 1, o, by simpa using hk, ?_, hb, lt_trans hlt hq.2, ?_, ?_⟩
        · rw [hstep, heq]
          congr 1
          push_cast
          ring
        · intro j p hj hbp
          cases j with
          | zero =>
            simp at hj
            rw [← hj]
            exact le_of_lt hlt
          | succ j =>
            simp at hj
            exact hmin j p hj hbp
        · intro j p hj hjk hbp
          cases j with
          | zero =>
            simp at hj
            rw [← hj]
            exact hlt
          | succ j =>
            simp at hj
            exact hfirst j p hj (by omega) hbp
    · have hstep : Scene.firstRayHitLoop ray (a :: os) i (firstHit, firstHitIndex) =
          Scene.firstRayHitLoop ray os (i + 1) (firstHit, firstHitIndex) := by
        simp only [Scene.firstRayHitLoop]
        rw [if_neg hq]
      rcases ih (i + 1) firstHit firstHitIndex with
        ⟨heq, hnone⟩ | ⟨k, o, hk, heq, hb, hlt, hmin, hfirst⟩
      · left
        refine ⟨by rw [hstep, heq], ?_⟩
        intro p hp
        rcases List.mem_cons.mp hp with rfl | hp
        · exact hq
        · exact hnone p hp
      · right
        have ha : (Scene.SELF_INTERSECTION_BIAS : WithTop ℚ) < (a.intersectRay ray).t →
            (o.intersectRay ray).t < (a.intersectRay ray).t := by
          intro hba
          have : firstHit.t ≤ (a.intersectRay ray).t := not_lt.mp fun h => hq ⟨hba, h⟩
          exact lt_of_lt_of_le hlt this
        refine ⟨k + 1, o, by simpa using hk, ?_, hb, hlt, ?_, ?_⟩
        · rw [hstep, heq]
          congr 1
          push_cast
          ring
        · intro j p hj hbp
          cases j with
          | zero =>
            simp at hj
            rw [← hj]
            exact le_of_lt (ha (hj ▸ hbp))
          | succ j =>
            simp at hj
            exact hmin j p hj hbp
        · intro j p hj hjk hbp
          cases j with
          | zero =>
            simp at hj
            rw [← hj]
            exact ha (hj ▸ hbp)
          | succ j =>
            simp at hj
            exact hfirst j p hj (by omega) hbp

/-- The two outcomes of `firstRayHit`: no object qualifies, the pointer is
null and `*_hitInfo` is not written; or the nearest qualifying object of
smallest index is returned with its hit. -/
theorem firstRayHit_spec (scene : Scene) (ray : Ray) (_hitInfo : RayHit) :
    (scene.firstRayHit ray _hitInfo = (none, _hitInfo) ∧
      ∀ o ∈ scene.m_objects,
        ¬ ((Scene.SELF_INTERSECTION_BIAS : WithTop ℚ) < (o.intersectRay ray).t ∧
          (o.intersectRay ray).t < ⊤)) ∨
    (∃ (k : Nat) (o : RayTracableObject), scene.m_objects[k]? = some o ∧
      scene.firstRayHit ray _hitInfo = (some k, o.intersectRay ray) ∧
      (Scene.SELF_INTERSECTION_BIAS : WithTop ℚ) < (o.intersectRay ray).t ∧
      (o.intersectRay ray).t < ⊤ ∧
      (∀ (j : Nat) (p : RayTracableObject), scene.m_objects[j]? = some p →
        (Scene.SELF_INTERSECTION_BIAS : WithTop ℚ) < (p.intersectRay ray).t →
        (o.intersectRay ray).t ≤ (p.intersectRay ray).t) ∧
      (∀ (j : Nat) (p : RayTracableObject), scene.m_objects[j]? = some p → j < k →
        (Scene.SELF_INTERSECTION_BIAS : WithTop ℚ) < (p.intersectRay ray).t →
        (o.intersectRay ray).t < (p.intersectRay ray).t)) := by
  rcases firstRayHitLoop_spec ray scene.m_objects 0 { RayHit.noHit with t := ⊤ } (-1) with
    ⟨heq, hnone⟩ | ⟨k, o, hk, heq, hb, hlt, hmin, hfirst⟩
  · left
    refine ⟨?_, hnone⟩
    simp only [Scene.firstRayHit, heq]
    simp
  · right
    refine ⟨k, o, hk, ?_, hb, hlt, hmin, hfirst⟩
    simp only [Scene.firstRayHit, heq]
    have hk0 : ¬ ((0 : Int) + (k : Int) < 0) := by omega
    rw [if_neg hk0]
    simp

/-- C2: if some object's hit has `1e-3 < t < +infinity`, `firstRayHit` returns
the index `k` of an object `o` of the scene and writes `o`'s hit to
`*_hitInfo`, where `o`'s distance is the smallest among all objects with
`t > 1e-3`, and every object before `k` with `t > 1e-3` is strictly farther: of
several objects at the same nearest distance, the one added first is returned. -/
theorem firstRayHit_nearest_first_wins (scene : Scene) (ray : Ray) (_hitInfo : RayHit)
    (h : ∃ q ∈ scene.m_objects,
      (Scene.SELF_INTERSECTION_BIAS : WithTop ℚ) < (q.intersectRay ray).t ∧
        (q.intersectRay ray).t < ⊤) :
    ∃ (k : Nat) (o : RayTracableObject), scene.m_objects[k]? = some o ∧
      scene.firstRayHit ray _hitInfo = (some k, o.intersectRay ray) ∧
      (Scene.SELF_INTERSECTION_BIAS : WithTop ℚ) < (o.intersectRay ray).t ∧
      (o.intersectRay ray).t < ⊤ ∧
      (∀ (j : Nat) (p : RayTracableObject), scene.m_objects[j]? = some p →
        (Scene.SELF_INTERSECTION_BIAS : WithTop ℚ) < (p.intersectRay ray).t →
        (o.intersectRay ray).t ≤ (p.intersectRay ray).t) ∧
      (∀ (j : Nat) (p : RayTracableObject), scene.m_objects[j]? = some p → j < k →
        (Scene.SELF_INTERSECTION_BIAS : WithTop ℚ) < (p.intersectRay ray).t →
        (o.intersectRay ray).t < (p.intersectRay ray).t) := by
  rcases firstRayHit_spec scene ray _hitInfo with ⟨_, hnone⟩ | hsome
  · obtain ⟨q, hq, hqt⟩ := h
    exact absurd hqt (hnone q hq)
  · exact hsome

/-- Witness of C2: in `tieScene` the first two objects are both at distance `5`;
the theorem applies, and the call returns index `0` with the first object's
(red) hit. -/
theorem firstRayHit_nearest_first_wins_witness :
    (∃ (k : Nat) (o : RayTracableObject), tieScene.m_objects[k]? = some o ∧
      tieScene.firstRayHit (rayDown 0 0 5) RayHit.noHit
        = (some k, o.intersectRay (rayDown 0 0 5)) ∧
      (Scene.SELF_INTERSECTION_BIAS : WithTop ℚ) < (o.intersectRay (rayDown 0 0 5)).t ∧
      (o.intersectRay (rayDown 0 0 5)).t < ⊤ ∧
      (∀ (j : Nat) (p : RayTracableObject), tieScene.m_objects[j]? = some p →
        (Scene.SELF_INTERSECTION_BIAS : WithTop ℚ) < (p.intersectRay (rayDown 0 0 5)).t →
        (o.intersectRay (rayDown 0 0 5)).t ≤ (p.intersectRay (rayDown 0 0 5)).t) ∧
      (∀ (j : Nat) (p : RayTracableObject), tieScene.m_objects[j]? = some p → j < k →
        (Scene.SELF_INTERSECTION_BIAS : WithTop ℚ) < (p.intersectRay (rayDown 0 0 5)).t →
        (o.intersectRay (rayDown 0 0 5)).t < (p.intersectRay (rayDown 0 0 5)).t)) ∧
    ((fun r : Option Nat × RayHit => (r.1, r.2.t, r.2.material.kd))
      (tieScene.firstRayHit (rayDown 0 0 5) RayHit.noHit))
      = (some 0, ((5 : ℚ) : WithTop ℚ), (⟨1, 0, 0⟩ : Vec3)) :=
  ⟨firstRayHit_nearest_first_wins tieScene (rayDown 0 0 5) RayHit.noHit
      ⟨constantObject (5 : ℚ) ⟨1, 0, 0⟩, by simp [tieScene], by decide!, by decide!⟩,
   by decide!⟩

/-- C3 as stated fails: on the empty scene, called with a `*_hitInfo` that holds
`t = 7`, `firstRayHit` returns the null pointer and `*_hitInfo` still holds
`t = 7`, not `+infinity`. -/
theorem firstRayHit_null_leaves_hitInfo_stale :
    (Scene.firstRayHit ⟨[]⟩ (rayDown 0 0 5) { RayHit.noHit with t := (7 : ℚ) }).1 = none ∧
    (Scene.firstRayHit ⟨[]⟩ (rayDown 0 0 5) { RayHit.noHit with t := (7 : ℚ) }).2.t
      = ((7 : ℚ) : WithTop ℚ) ∧
    ¬ (Scene.firstRayHit ⟨[]⟩ (rayDown 0 0 5) { RayHit.noHit with t := (7 : ℚ) }).2.t = ⊤ := by
  refine ⟨?_, ?_, ?_⟩ <;> decide!

/-- C3, amended: if no object's hit has `1e-3 < t < +infinity` (the empty scene
included), `firstRayHit` returns the null pointer and does not write
`*_hitInfo`, which keeps the value the caller passed in. -/
theorem firstRayHit_no_hit (scene : Scene) (ray : Ray) (_hitInfo : RayHit)
    (h : ∀ o ∈ scene.m_objects,
      ¬ ((Scene.SELF_INTERSECTION_BIAS : WithTop ℚ) < (o.intersectRay ray).t ∧
        (o.intersectRay ray).t < ⊤)) :
    scene.firstRayHit ray _hitInfo = (none, _hitInfo) := by
  rcases firstRayHit_spec scene ray _hitInfo with ⟨heq, _⟩ | ⟨k, o, hk, _, hb, hlt, _, _⟩
  · exact heq
  · exact absurd ⟨hb, hlt⟩ (h o (List.getElem?_mem hk))

/-- Witness of C3 (amended): in `missScene` one object is at exactly the bias
distance and the other reports `+infinity`; the caller's record with `t = 7`
comes back unchanged next to the null pointer. -/
theorem firstRayHit_no_hit_witness :
    (∀ o ∈ missScene.m_objects,
      ¬ ((Scene.SELF_INTERSECTION_BIAS : WithTop ℚ) < (o.intersectRay (rayDown 0 0 5)).t ∧
        (o.intersectRay (rayDown 0 0 5)).t < ⊤)) ∧
    missScene.firstRayHit (rayDown 0 0 5) { RayHit.noHit with t := (7 : ℚ) }
      = (none, { RayHit.noHit with t := (7 : ℚ) }) :=
  ⟨by simp [missScene, constantObject, Scene.SELF_INTERSECTION_BIAS],
   firstRayHit_no_hit missScene (rayDown 0 0 5) { RayHit.noHit with t := (7 : ℚ) }
     (by simp [missScene, constantObject, Scene.SELF_INTERSECTION_BIAS])⟩

/-- The material of a hit, field by field: `kd` is the diffuse sample when the
diffuse texture is valid, `ks` is the diffuse texture's sample when the specular
texture is valid, `ke` is the emissive sample when the emissive texture is
valid; every other field is the default material's. -/
theorem hitMaterial_fields (obj : RenderableObject) (texCoord : Vec2) :
    (obj.hitMaterial texCoord).1 =
      { obj.m_defaultMaterial with
        kd := if obj.m_kdTexture.isValid then obj.m_kdTexture.sample texCoord
          else obj.m_defaultMaterial.kd
        ks := if obj.m_ksTexture.isValid then obj.m_kdTexture.sample texCoord
          else obj.m_defaultMaterial.ks
        ke := if obj.m_keTexture.isValid then obj.m_keTexture.sample texCoord
          else obj.m_defaultMaterial.ke } := by
  unfold RenderableObject.hitMaterial
  cases obj.m_kdTexture.isValid <;> cases obj.m_ksTexture.isValid <;>
    cases obj.m_keTexture.isValid <;> rfl

/-- The diffuse texture is sampled exactly when the diffuse or the specular
texture is valid. -/
theorem hitMaterial_samples_kdTexture (obj : RenderableObject) (texCoord : Vec2) :
    TextureSlot.kdTexture ∈ (obj.hitMaterial texCoord).2 ↔
      (obj.m_kdTexture.isValid = true ∨ obj.m_ksTexture.isValid = true) := by
  unfold RenderableObject.hitMaterial
  cases obj.m_kdTexture.isValid <;> cases obj.m_ksTexture.isValid <;>
    cases obj.m_keTexture.isValid <;> simp

/-- C8, at the failing input: the object is configured with `hasKdMap = false`
and `hasKsMap = true`.  Its diffuse texture is not valid, the ray from
`(0.2, 0.2, 5)` is accepted, the hit's `kd` is the default `kd`, and yet
`sample` is called on the diffuse texture (once, by the specular branch). -/
theorem hitMaterial_samples_unbound_diffuse_texture :
    specularOnlyObject.m_kdTexture.isValid = false ∧
    ((specularOnlyObject.intersectRay id (rayDown (1/5) (1/5) 5)).map
      fun h => (h.t, h.material.kd)) = some (((5 : ℚ) : WithTop ℚ), (⟨1/2, 1/2, 1/2⟩ : Vec3)) ∧
    (specularOnlyObject.hitMaterial
      (triTexCoord (rayDown (1/5) (1/5) 5)
        (specularOnlyObject.vertexToWorld id (vertexAt 0 0 0))
        (specularOnlyObject.vertexToWorld id (vertexAt 1 0 0))
        (specularOnlyObject.vertexToWorld id (vertexAt 0 1 0)))).2 = [TextureSlot.kdTexture] := by
  refine ⟨?_, ?_, ?_⟩ <;> decide!

/-- C9, at the failing input: the object is configured with diffuse, specular
and emissive maps, loaded as red, green and blue textures.  The hit's `ks` is
red, the diffuse texture's sample, not the specular texture's green; and the
hit's `ke` is the default material's `(0,0,0)`, not the emissive texture's
blue, because the constructor never loads the emissive texture. -/
theorem hitMaterial_ks_ke_not_from_own_texture :
    ((fullyMappedObject.intersectRay id (rayDown (1/5) (1/5) 5)).map
      fun h => (h.t, h.material.ks, h.material.ke))
      = some (((5 : ℚ) : WithTop ℚ), (⟨1, 0, 0⟩ : Vec3), (⟨0, 0, 0⟩ : Vec3)) ∧
    (paletteLoader "ks.png").isValid = true ∧
    (paletteLoader "ks.png").sample ⟨1/5, 1/5⟩ = ⟨0, 1, 0⟩ ∧
    (paletteLoader "ke.png").isValid = true ∧
    (paletteLoader "ke.png").sample ⟨1/5, 1/5⟩ = ⟨0, 0, 1⟩ ∧
    fullyMappedObject.m_keTexture.isValid = false := by
  refine ⟨?_, ?_, ?_, ?_, ?_, ?_⟩ <;> decide!

/-! ### Reversed winding -/

/-- With `det ≠ 0`, the point `origin + t * direction` is the combination of the
three vertex positions with the weights `1 - b - c`, `b`, `c`. -/
theorem hitPoint_eq_barycentric (ray : Ray) (v0 v1 v2 : Vertex)
    (hdet : triDet ray v0 v1 v2 ≠ 0) :
    ray.origin.add (ray.direction.smul (triT ray v0 v1 v2)) =
      ((Vec3.smul (1 - triB ray v0 v1 v2 - triC ray v0 v1 v2) v0.p).add
        (Vec3.smul (triB ray v0 v1 v2) v1.p)).add (Vec3.smul (triC ray v0 v1 v2) v2.p) := by
  have hb : triDet ray v0 v1 v2 * triB ray v0 v1 v2 =
      (ray.origin.sub v0.p).dot (ray.direction.cross (v2.p.sub v0.p)) := by
    simp only [triB]
    field_simp
  have hc : triDet ray v0 v1 v2 * triC ray v0 v1 v2 =
      ray.direction.dot ((ray.origin.sub v0.p).cross (v1.p.sub v0.p)) := by
    simp only [triC]
    field_simp
  have ht : triDet ray v0 v1 v2 * triT ray v0 v1 v2 =
      (v2.p.sub v0.p).dot ((ray.origin.sub v0.p).cross (v1.p.sub v0.p)) := by
    simp only [triT]
    field_simp
  generalize triB ray v0 v1 v2 = b at hb ⊢
  generalize triC ray v0 v1 v2 = c at hc ⊢
  generalize triT ray v0 v1 v2 = t at ht ⊢
  simp only [triDet, Vec3.sub, Vec3.dot, Vec3.cross] at hdet hb hc ht
  simp only [Vec3.add, Vec3.smul, Vec3.mk.injEq]
  refine ⟨?_, ?_, ?_⟩
  · apply mul_left_cancel₀ hdet
    linear_combination ray.direction.x * ht + (v0.p.x - v1.p.x) * hb + (v0.p.x - v2.p.x) * hc
  · apply mul_left_cancel₀ hdet
    linear_combination ray.direction.y * ht + (v0.p.y - v1.p.y) * hb + (v0.p.y - v2.p.y) * hc
  · apply mul_left_cancel₀ hdet
    linear_combination ray.direction.z * ht + (v0.p.z - v1.p.z) * hb + (v0.p.z - v2.p.z) * hc

/-- C12: in exact arithmetic, with `det ≠ 0`, the computed `b`, `c`, `t` satisfy
`origin + t * direction = (1 - b - c) * v0.p + b * v1.p + c * v2.p`; and when the
call accepts, the recorded position is that combination, the weights
`a = 1 - b - c`, `b`, `c` are non-negative and sum to one (the position lies in
the closed triangle), and the recorded normal uses the same weights, as does the
interpolated texture coordinate. -/
theorem intersectRayTriangle_position_in_triangle (obj : RasterizableObject) (ray : Ray)
    (v0 v1 v2 : Vertex) (hitResult : RayHit) (hdet : triDet ray v0 v1 v2 ≠ 0) :
    ray.origin.add (ray.direction.smul (triT ray v0 v1 v2)) =
      ((Vec3.smul (1 - triB ray v0 v1 v2 - triC ray v0 v1 v2) v0.p).add
        (Vec3.smul (triB ray v0 v1 v2) v1.p)).add (Vec3.smul (triC ray v0 v1 v2) v2.p) ∧
    ((obj.intersectRayTriangle ray v0 v1 v2 hitResult).1 = true →
      (obj.intersectRayTriangle ray v0 v1 v2 hitResult).2.position =
        ((Vec3.smul (1 - triB ray v0 v1 v2 - triC ray v0 v1 v2) v0.p).add
          (Vec3.smul (triB ray v0 v1 v2) v1.p)).add (Vec3.smul (triC ray v0 v1 v2) v2.p) ∧
      (obj.intersectRayTriangle ray v0 v1 v2 hitResult).2.normal =
        ((Vec3.smul (1 - triB ray v0 v1 v2 - triC ray v0 v1 v2) v0.n).add
          (Vec3.smul (triB ray v0 v1 v2) v1.n)).add (Vec3.smul (triC ray v0 v1 v2) v2.n) ∧
      triTexCoord ray v0 v1 v2 =
        ((Vec2.smul (1 - triB ray v0 v1 v2 - triC ray v0 v1 v2) v0.t).add
          (Vec2.smul (triB ray v0 v1 v2) v1.t)).add (Vec2.smul (triC ray v0 v1 v2) v2.t) ∧
      0 ≤ 1 - triB ray v0 v1 v2 - triC ray v0 v1 v2 ∧
      0 ≤ triB ray v0 v1 v2 ∧ 0 ≤ triC ray v0 v1 v2 ∧
      (1 - triB ray v0 v1 v2 - triC ray v0 v1 v2) + triB ray v0 v1 v2 + triC ray v0 v1 v2
        = 1) := by
  refine ⟨hitPoint_eq_barycentric ray v0 v1 v2 hdet, ?_⟩
  rw [intersectRayTriangle_eq_ite]
  by_cases hacc : triAccepts ray v0 v1 v2 hitResult
  · rw [if_pos hacc]
    intro _
    obtain ⟨_, ⟨hb0, _⟩, ⟨hc0, hbc⟩, _⟩ := hacc
    refine ⟨hitPoint_eq_barycentric ray v0 v1 v2 hdet, rfl, rfl, by linarith, hb0, hc0,
      by ring⟩
  · rw [if_neg hacc]
    intro hf
    exact absurd hf (by simp)

/-- Witness of C12: the ray from `(0.2, 0.2, 5)` downwards on the unit triangle;
`det ≠ 0`, the call accepts, and the hit point is the combination of the
corners. -/
theorem intersectRayTriangle_position_in_triangle_witness :
    triDet (rayDown (1/5) (1/5) 5) (vertexAt 0 0 0) (vertexAt 1 0 0) (vertexAt 0 1 0) ≠ 0 ∧
    (unitTriangleObject.intersectRayTriangle (rayDown (1/5) (1/5) 5)
      (vertexAt 0 0 0) (vertexAt 1 0 0) (vertexAt 0 1 0) RayHit.noHit).1 = true ∧
    (rayDown (1/5) (1/5) 5).origin.add ((rayDown (1/5) (1/5) 5).direction.smul
        (triT (rayDown (1/5) (1/5) 5) (vertexAt 0 0 0) (vertexAt 1 0 0) (vertexAt 0 1 0))) =
      ((Vec3.smul (1 - triB (rayDown (1/5) (1/5) 5) (vertexAt 0 0 0) (vertexAt 1 0 0)
            (vertexAt 0 1 0) - triC (rayDown (1/5) (1/5) 5) (vertexAt 0 0 0) (vertexAt 1 0 0)
            (vertexAt 0 1 0)) (vertexAt 0 0 0).p).add
        (Vec3.smul (triB (rayDown (1/5) (1/5) 5) (vertexAt 0 0 0) (vertexAt 1 0 0)
          (vertexAt 0 1 0)) (vertexAt 1 0 0).p)).add
        (Vec3.smul (triC (rayDown (1/5) (1/5) 5) (vertexAt 0 0 0) (vertexAt 1 0 0)
          (vertexAt 0 1 0)) (vertexAt 0 1 0).p) :=
  ⟨by decide!, by decide!,
   (intersectRayTriangle_position_in_triangle unitTriangleObject (rayDown (1/5) (1/5) 5)
      (vertexAt 0 0 0) (vertexAt 1 0 0) (vertexAt 0 1 0) RayHit.noHit (by decide!)).1⟩

/-! ### Frame and monotonicity of the accumulator -/

/-- In exact arithmetic, one call never increases the accumulated distance. -/
theorem intersectRayTriangle_t_le (obj : RasterizableObject) (ray : Ray)
    (v0 v1 v2 : Vertex) (hitResult : RayHit) :
    (obj.intersectRayTriangle ray v0 v1 v2 hitResult).2.t ≤ hitResult.t := by
  rw [intersectRayTriangle_eq_ite]
  by_cases hacc : triAccepts ray v0 v1 v2 hitResult
  · rw [if_pos hacc]
    exact le_of_lt hacc.2.2.2.2
  · rw [if_neg hacc]

/-- In exact arithmetic, a sequence of calls never increases the accumulated
distance. -/
theorem intersectRayTriangleSeq_t_le (obj : RasterizableObject) (calls : List TriangleCall) :
    ∀ hitResult : RayHit, (obj.intersectRayTriangleSeq calls hitResult).t ≤ hitResult.t := by
  induction calls with
  | nil =>
    intro hitResult
    exact le_refl _
  | cons c cs ih =>
    intro hitResult
    simp only [RasterizableObject.intersectRayTriangleSeq, List.foldl_cons]
    exact le_trans (ih _) (intersectRayTriangle_t_le obj c.ray c.v0 c.v1 c.v2 hitResult)

/-- In exact arithmetic, the loop of `intersectRay` never increases the
accumulated distance. -/
theorem intersectRayLoop_t_le (normalize : Vec3 → Vec3) (obj : RasterizableObject)
    (ray : Ray) :
    ∀ (n i : Nat) (st r : Bool × RayHit),
      obj.intersectRayLoop normalize ray n i st = some r → r.2.t ≤ st.2.t := by
  intro n
  induction n with
  | zero =>
    intro i st r h
    simp only [RasterizableObject.intersectRayLoop, Option.some.injEq] at h
    rw [← h]
  | succ n ih =>
    intro i st r h
    obtain ⟨isHit, hitResult⟩ := st
    cases isHit with
    | true =>
      simp only [RasterizableObject.intersectRayLoop, if_true] at h
      exact ih (i + 3) _ r h
    | false =>
      simp only [RasterizableObject.intersectRayLoop, Bool.false_eq_true, if_false,
        Option.bind_eq_bind, Option.bind_eq_some] at h
      obtain ⟨a0, _, a1, _, a2, _, h⟩ := h
      exact le_trans (ih (i + 3) _ r h) (intersectRayTriangle_t_le obj ray _ _ _ hitResult)

/-! ## The triangle test in binary32 -/

/-- The bias `1e-3f` is the binary32 number `8589935 / 2^33`. -/
theorem binary32_bias_value :
    Binary32.RasterizableObject.SELF_INTERSECTION_BIAS
      = Binary32.F32.fin (8589935 / 8589934592) := by
  decide!

/-- Between two values that are not NaN, `x <= y` is false exactly when
`y < x`. -/
theorem binary32_le_eq_false_iff (x y : Binary32.F32) (hx : x ≠ Binary32.F32.nan)
    (hy : y ≠ Binary32.F32.nan) :
    Binary32.F32.le x y = false ↔ Binary32.F32.lt y x = true := by
  cases x <;> cases y <;> simp_all [Binary32.F32.le, Binary32.F32.lt]

/-- A comparison `x < y` that holds makes `y <= x` false. -/
theorem binary32_le_eq_false_of_lt (x y : Binary32.F32) (h : Binary32.F32.lt x y = true) :
    Binary32.F32.le y x = false := by
  cases x <;> cases y <;> simp_all [Binary32.F32.le, Binary32.F32.lt]

/-- The binary32 triangle test accepts exactly when the barycentric tests and
the distance test let the hit pass; it then writes `acceptedHit`, and otherwise
leaves the accumulator as it was. -/
theorem binary32_intersectRayTriangle_eq_ite (obj : Binary32.RasterizableObject)
    (ray : Binary32.Ray) (v0 v1 v2 : Binary32.Vertex) (hitResult : Binary32.RayHit) :
    obj.intersectRayTriangle ray v0 v1 v2 hitResult =
      if (Binary32.triInside ray v0 v1 v2 && Binary32.triCloser ray v0 v1 v2 hitResult) = true
      then (true, obj.acceptedHit ray v0 v1 v2)
      else (false, hitResult) := by
  simp only [Binary32.RasterizableObject.intersectRayTriangle, Binary32.triInside,
    Binary32.triCloser, Binary32.RasterizableObject.acceptedHit]
  generalize Binary32.F32.eq (Binary32.triDet ray v0 v1 v2) Binary32.F32.zero = d0
  generalize Binary32.F32.lt (Binary32.triB ray v0 v1 v2) Binary32.F32.zero = d1
  generalize Binary32.F32.gt (Binary32.triB ray v0 v1 v2) Binary32.F32.one = d2
  generalize Binary32.F32.lt (Binary32.triC ray v0 v1 v2) Binary32.F32.zero = d3
  generalize Binary32.F32.gt (Binary32.F32.add (Binary32.triB ray v0 v1 v2)
    (Binary32.triC ray v0 v1 v2)) Binary32.F32.one = d4
  generalize Binary32.F32.le (Binary32.triT ray v0 v1 v2)
    Binary32.RasterizableObject.SELF_INTERSECTION_BIAS = d5
  generalize Binary32.F32.le hitResult.t (Binary32.triT ray v0 v1 v2) = d6
  cases d0 <;> cases d1 <;> cases d2 <;> cases d3 <;> cases d4 <;> cases d5 <;> cases d6 <;>
    simp

/-- C6 as stated fails: on the triangle `(0,0,0), (2^64,0,0), (0,2^64,0)` with
the ray from `(2^62, 2^62, 5)` downwards, `det` overflows to `+inf`, `invDet`
is `0`, `b = c = 0` pass the barycentric tests, `t = inf * 0` is NaN, and the
call on an accumulator holding `t = 4` returns `true`, although
`1e-3 < t < 4` does not hold. -/
theorem binary32_intersectRayTriangle_accepts_nan :
    Binary32.triDet Binary32.hugeCall.ray Binary32.hugeCall.v0 Binary32.hugeCall.v1
      Binary32.hugeCall.v2 = Binary32.F32.pinf ∧
    Binary32.triB Binary32.hugeCall.ray Binary32.hugeCall.v0 Binary32.hugeCall.v1
      Binary32.hugeCall.v2 = Binary32.F32.fin 0 ∧
    Binary32.triC Binary32.hugeCall.ray Binary32.hugeCall.v0 Binary32.hugeCall.v1
      Binary32.hugeCall.v2 = Binary32.F32.fin 0 ∧
    Binary32.triT Binary32.hugeCall.ray Binary32.hugeCall.v0 Binary32.hugeCall.v1
      Binary32.hugeCall.v2 = Binary32.F32.nan ∧
    Binary32.triInside Binary32.hugeCall.ray Binary32.hugeCall.v0 Binary32.hugeCall.v1
      Binary32.hugeCall.v2 = true ∧
    (Binary32.plainObject.intersectRayTriangle Binary32.hugeCall.ray Binary32.hugeCall.v0
      Binary32.hugeCall.v1 Binary32.hugeCall.v2
      (Binary32.hitWith (Binary32.F32.fin 4))).1 = true ∧
    ¬ (Binary32.F32.lt Binary32.RasterizableObject.SELF_INTERSECTION_BIAS
        (Binary32.triT Binary32.hugeCall.ray Binary32.hugeCall.v0 Binary32.hugeCall.v1
          Binary32.hugeCall.v2) = true ∧
      Binary32.F32.lt (Binary32.triT Binary32.hugeCall.ray Binary32.hugeCall.v0
        Binary32.hugeCall.v1 Binary32.hugeCall.v2) (Binary32.F32.fin 4) = true) := by
  refine ⟨?_, ?_, ?_, ?_, ?_, ?_, ?_⟩ <;> decide!

/-- C6, amended: in binary32, when the barycentric tests pass, the hit is
rejected if `t <= 1e-3f` (so also at `t` exactly equal to the bias) and if
`current best <= t` (so also at `t` exactly equal to the current best); it is
accepted whenever `1e-3f < t < current best`; and when `t` and the current best
are numbers (not NaN), it is accepted only then. -/
theorem binary32_intersectRayTriangle_distance (obj : Binary32.RasterizableObject)
    (ray : Binary32.Ray) (v0 v1 v2 : Binary32.Vertex) (hitResult : Binary32.RayHit)
    (hin : Binary32.triInside ray v0 v1 v2 = true) :
    ((Binary32.F32.le (Binary32.triT ray v0 v1 v2)
          Binary32.RasterizableObject.SELF_INTERSECTION_BIAS = true ∨
        Binary32.F32.le hitResult.t (Binary32.triT ray v0 v1 v2) = true) →
      obj.intersectRayTriangle ray v0 v1 v2 hitResult = (false, hitResult)) ∧
    ((Binary32.F32.lt Binary32.RasterizableObject.SELF_INTERSECTION_BIAS
          (Binary32.triT ray v0 v1 v2) = true ∧
        Binary32.F32.lt (Binary32.triT ray v0 v1 v2) hitResult.t = true) →
      (obj.intersectRayTriangle ray v0 v1 v2 hitResult).1 = true) ∧
    (Binary32.triT ray v0 v1 v2 ≠ Binary32.F32.nan → hitResult.t ≠ Binary32.F32.nan →
      ((obj.intersectRayTriangle ray v0 v1 v2 hitResult).1 = true ↔
        (Binary32.F32.lt Binary32.RasterizableObject.SELF_INTERSECTION_BIAS
            (Binary32.triT ray v0 v1 v2) = true ∧
          Binary32.F32.lt (Binary32.triT ray v0 v1 v2) hitResult.t = true))) := by
  have hbias : Binary32.RasterizableObject.SELF_INTERSECTION_BIAS ≠ Binary32.F32.nan := by
    rw [binary32_bias_value]
    exact fun h => Binary32.F32.noConfusion h
  have hacc : (obj.intersectRayTriangle ray v0 v1 v2 hitResult).1 = true ↔
      (Binary32.F32.le (Binary32.triT ray v0 v1 v2)
          Binary32.RasterizableObject.SELF_INTERSECTION_BIAS = false ∧
        Binary32.F32.le hitResult.t (Binary32.triT ray v0 v1 v2) = false) := by
    rw [binary32_intersectRayTriangle_eq_ite, hin]
    simp only [Binary32.triCloser, Bool.true_and]
    cases Binary32.F32.le (Binary32.triT ray v0 v1 v2)
        Binary32.RasterizableObject.SELF_INTERSECTION_BIAS <;>
      cases Binary32.F32.le hitResult.t (Binary32.triT ray v0 v1 v2) <;> simp
  refine ⟨?_, ?_, ?_⟩
  · intro h
    rw [binary32_intersectRayTriangle_eq_ite, hin]
    simp only [Binary32.triCloser, Bool.true_and]
    rcases h with h | h <;> simp [h]
  · rintro ⟨h1, h2⟩
    exact hacc.mpr ⟨binary32_le_eq_false_of_lt _ _ h1, binary32_le_eq_false_of_lt _ _ h2⟩
  · intro ht hbest
    rw [hacc, binary32_le_eq_false_iff _ _ ht hbias, binary32_le_eq_false_iff _ _ hbest ht]

/-- Witness of C6 (amended): on the unit triangle the ray from height `1e-3f`
has `t` exactly equal to the bias and is rejected, and the ray from height `5`
is rejected on an accumulator that already holds `t = 5`. -/
theorem binary32_intersectRayTriangle_distance_witness :
    (Binary32.triT (Binary32.unitCall Binary32.RasterizableObject.SELF_INTERSECTION_BIAS).ray
        (Binary32.unitCall Binary32.RasterizableObject.SELF_INTERSECTION_BIAS).v0
        (Binary32.unitCall Binary32.RasterizableObject.SELF_INTERSECTION_BIAS).v1
        (Binary32.unitCall Binary32.RasterizableObject.SELF_INTERSECTION_BIAS).v2
        = Binary32.RasterizableObject.SELF_INTERSECTION_BIAS ∧
      Binary32.plainObject.intersectRayTriangle
        (Binary32.unitCall Binary32.RasterizableObject.SELF_INTERSECTION_BIAS).ray
        (Binary32.unitCall Binary32.RasterizableObject.SELF_INTERSECTION_BIAS).v0
        (Binary32.unitCall Binary32.RasterizableObject.SELF_INTERSECTION_BIAS).v1
        (Binary32.unitCall Binary32.RasterizableObject.SELF_INTERSECTION_BIAS).v2
        (Binary32.hitWith Binary32.F32.pinf) = (false, Binary32.hitWith Binary32.F32.pinf)) ∧
    (Binary32.triT (Binary32.unitCall (Binary32.F32.fin 5)).ray
        (Binary32.unitCall (Binary32.F32.fin 5)).v0 (Binary32.unitCall (Binary32.F32.fin 5)).v1
        (Binary32.unitCall (Binary32.F32.fin 5)).v2 = Binary32.F32.fin 5 ∧
      Binary32.plainObject.intersectRayTriangle (Binary32.unitCall (Binary32.F32.fin 5)).ray
        (Binary32.unitCall (Binary32.F32.fin 5)).v0 (Binary32.unitCall (Binary32.F32.fin 5)).v1
        (Binary32.unitCall (Binary32.F32.fin 5)).v2 (Binary32.hitWith (Binary32.F32.fin 5))
        = (false, Binary32.hitWith (Binary32.F32.fin 5))) :=
  ⟨⟨by decide!,
    (binary32_intersectRayTriangle_distance Binary32.plainObject
      (Binary32.unitCall Binary32.RasterizableObject.SELF_INTERSECTION_BIAS).ray
      (Binary32.unitCall Binary32.RasterizableObject.SELF_INTERSECTION_BIAS).v0
      (Binary32.unitCall Binary32.RasterizableObject.SELF_INTERSECTION_BIAS).v1
      (Binary32.unitCall Binary32.RasterizableObject.SELF_INTERSECTION_BIAS).v2
      (Binary32.hitWith Binary32.F32.pinf) (by decide!)).1 (Or.inl (by decide!))⟩,
   ⟨by decide!,
    (binary32_intersectRayTriangle_distance Binary32.plainObject
      (Binary32.unitCall (Binary32.F32.fin 5)).ray (Binary32.unitCall (Binary32.F32.fin 5)).v0
      (Binary32.unitCall (Binary32.F32.fin 5)).v1 (Binary32.unitCall (Binary32.F32.fin 5)).v2
      (Binary32.hitWith (Binary32.F32.fin 5)) (by decide!)).1 (Or.inr (by decide!))⟩⟩

/-- C10 as stated fails: for the integer triangle `slantV0, slantV1, slantV2`
and `n = (-2, 8, 9)`, not parallel to its plane, the rays from `vertex + 2 * n`
in direction `-n` are built without rounding.  Aimed at the third vertex, the
binary32 test computes `b = 9636947 / 2^46`, `c = 1 - 2^-24` and
`b + c = 1 + 2^-23 > 1`, and rejects.  Aimed at the second vertex, it accepts
with `b = 1 - 2^-24`, and the recorded normal is not that vertex's normal. -/
theorem binary32_intersectRayTriangle_at_vertex_rejected :
    (⟨-2, 8, 9⟩ : Vec3).dot
        (((⟨22, 890, -212⟩ : Vec3).sub ⟨787, -892, -86⟩).cross
          ((⟨-654, 521, -37⟩ : Vec3).sub ⟨787, -892, -86⟩)) ≠ 0 ∧
    Binary32.F32.lt Binary32.RasterizableObject.SELF_INTERSECTION_BIAS (Binary32.F32.fin 2)
      = true ∧
    (Binary32.aimedRay Binary32.slantV2.p Binary32.slantN (Binary32.F32.fin 2))
      = ⟨Binary32.vec3 (-658) 537 (-19), Binary32.vec3 2 (-8) (-9)⟩ ∧
    Binary32.triB (Binary32.aimedRay Binary32.slantV2.p Binary32.slantN (Binary32.F32.fin 2))
      Binary32.slantV0 Binary32.slantV1 Binary32.slantV2
      = Binary32.F32.fin (9636947 / 70368744177664) ∧
    Binary32.triC (Binary32.aimedRay Binary32.slantV2.p Binary32.slantN (Binary32.F32.fin 2))
      Binary32.slantV0 Binary32.slantV1 Binary32.slantV2
      = Binary32.F32.fin (16777215 / 16777216) ∧
    Binary32.F32.add
      (Binary32.triB (Binary32.aimedRay Binary32.slantV2.p Binary32.slantN (Binary32.F32.fin 2))
        Binary32.slantV0 Binary32.slantV1 Binary32.slantV2)
      (Binary32.triC (Binary32.aimedRay Binary32.slantV2.p Binary32.slantN (Binary32.F32.fin 2))
        Binary32.slantV0 Binary32.slantV1 Binary32.slantV2)
      = Binary32.F32.fin (8388609 / 8388608) ∧
    Binary32.plainObject.intersectRayTriangle
      (Binary32.aimedRay Binary32.slantV2.p Binary32.slantN (Binary32.F32.fin 2))
      Binary32.slantV0 Binary32.slantV1 Binary32.slantV2 (Binary32.hitWith Binary32.F32.pinf)
      = (false, Binary32.hitWith Binary32.F32.pinf) ∧
    (Binary32.plainObject.intersectRayTriangle
      (Binary32.aimedRay Binary32.slantV1.p Binary32.slantN (Binary32.F32.fin 2))
      Binary32.slantV0 Binary32.slantV1 Binary32.slantV2
      (Binary32.hitWith Binary32.F32.pinf)).1 = true ∧
    (Binary32.plainObject.intersectRayTriangle
      (Binary32.aimedRay Binary32.slantV1.p Binary32.slantN (Binary32.F32.fin 2))
      Binary32.slantV0 Binary32.slantV1 Binary32.slantV2
      (Binary32.hitWith Binary32.F32.pinf)).2.normal
      = ⟨Binary32.F32.fin (1 / 16777216), Binary32.F32.fin (16777215 / 16777216),
          Binary32.F32.fin 0⟩ ∧
    (Binary32.plainObject.intersectRayTriangle
      (Binary32.aimedRay Binary32.slantV1.p Binary32.slantN (Binary32.F32.fin 2))
      Binary32.slantV0 Binary32.slantV1 Binary32.slantV2
      (Binary32.hitWith Binary32.F32.pinf)).2.normal ≠ Binary32.slantV1.n := by
  refine ⟨?_, ?_, ?_, ?_, ?_, ?_, ?_, ?_, ?_, ?_⟩ <;> decide!

/-- With enough fuel, `log2Aux` brackets `n` between two powers of two. -/
theorem binary32_log2Aux_spec :
    ∀ (fuel n : Nat), 0 < n → n < 2 ^ (fuel + 1) →
      2 ^ Binary32.F32.log2Aux fuel n ≤ n ∧ n < 2 ^ (Binary32.F32.log2Aux fuel n + 1) := by
  intro fuel
  induction fuel with
  | zero =>
    intro n hpos hlt
    simp only [Binary32.F32.log2Aux]
    omega
  | succ f ih =>
    intro n hpos hlt
    by_cases h2 : n < 2
    · simp only [Binary32.F32.log2Aux, if_pos h2]
      omega
    · simp only [Binary32.F32.log2Aux, if_neg h2]
      have hhalf : n / 2 < 2 ^ (f + 1) := by
        rw [Nat.div_lt_iff_lt_mul (by norm_num)]
        rw [pow_succ] at hlt
        exact hlt
      obtain ⟨hlo, hhi⟩ := ih (n / 2) (by omega) hhalf
      constructor
      · rw [pow_succ]
        omega
      · rw [pow_succ]
        omega

/-- The function `log2` is the integer logarithm: `2 ^ log2 n ≤ n < 2 ^ (log2 n + 1)`
for every positive `n`. -/
theorem binary32_log2_spec (n : Nat) (hpos : 0 < n) :
    2 ^ Binary32.F32.log2 n ≤ n ∧ n < 2 ^ (Binary32.F32.log2 n + 1) :=
  binary32_log2Aux_spec n n hpos (lt_trans (Nat.lt_two_pow n) (by
    rw [pow_succ]
    have : 0 < 2 ^ n := Nat.two_pow_pos n
    omega))

/-- Sample roundings: a value between two neighbours, ties to the even
neighbour, the overflow threshold, and the subnormal range. -/
theorem binary32_round_examples :
    Binary32.F32.round (1 / 3) = Binary32.F32.fin (11184811 / 33554432) ∧
    Binary32.F32.round (1 / 10) = Binary32.F32.fin (13421773 / 134217728) ∧
    Binary32.F32.round (2 ^ 24 + 1) = Binary32.F32.fin (2 ^ 24) ∧
    Binary32.F32.round (2 ^ 24 + 3) = Binary32.F32.fin (2 ^ 24 + 4) ∧
    Binary32.F32.round (2 ^ 128 - 2 ^ 103 - 1) = Binary32.F32.fin (2 ^ 128 - 2 ^ 104) ∧
    Binary32.F32.round (2 ^ 128 - 2 ^ 103) = Binary32.F32.pinf ∧
    Binary32.F32.round (-(2 ^ 128)) = Binary32.F32.ninf ∧
    Binary32.F32.round (1 / 2 ^ 150) = Binary32.F32.fin 0 ∧
    Binary32.F32.round (3 / 2 ^ 150) = Binary32.F32.fin (1 / 2 ^ 148) ∧
    Binary32.F32.round (-5 / 2 ^ 151) = Binary32.F32.fin (-1 / 2 ^ 149) ∧
    Binary32.F32.mul (Binary32.F32.round (2 ^ 64)) (Binary32.F32.round (2 ^ 64))
      = Binary32.F32.pinf ∧
    Binary32.F32.mul Binary32.F32.pinf (Binary32.F32.fin 0) = Binary32.F32.nan ∧
    Binary32.F32.div Binary32.F32.one Binary32.F32.pinf = Binary32.F32.fin 0 := by
  refine ⟨?_, ?_, ?_, ?_, ?_, ?_, ?_, ?_, ?_, ?_, ?_, ?_, ?_⟩ <;> decide!

end Graphics
